import Mathlib

/-!
The state-queue sequencer of pomodoro_box, `src/main.cpp`.

A shallow embedding of the firmware's `setup()` and `loop()`.

* The globals (`state_queue`, the two timestamps, `is_extended`) and the four
  output pins the program writes are the fields of `Sequencer`.
* `int64_t` timestamps are `Int`. Signed overflow is undefined behaviour in
  C++, so the embedding describes the executions in which no timestamp
  arithmetic leaves the 64-bit range; there the two agree.
* The C array `state_queue[6]` is a `List state_t`; an element write is
  `List.set`, an element read is `List.getD`, and each `for` loop is the
  iteration `for_range` of its body.
* One iteration of `loop()` is the composition of its three consecutive
  blocks: `loop_advance` (lines 113-166), `loop_leds` (168-211) and
  `loop_buttons` (213-310).
-/

namespace PomodoroBox

/-! ## Data model -/

/-- The enumeration `state_t`. -/
inductive state_t where
  | IDLE
  | COUNTDOWN
  | EXTENDING
  | RETRACTING
  deriving DecidableEq

/-- The output pins the program writes. -/
inductive pin_t where
  | HBRIDGE_A
  | HBRIDGE_B
  | GREEN_LED
  | RED_LED
  deriving DecidableEq

/-- Pin level `LOW`. -/
def LOW : Bool := false

/-- Pin level `HIGH`. -/
def HIGH : Bool := true

/-- The macro `MS`, `#define MS 1000`. -/
def MS : Int := 1000

/-- The macro `S`, `#define S (MS * 1000)`. -/
def S : Int := MS * 1000

/-- The macro `MINS`, `#define MINS (S * 60)`. -/
def MINS : Int := S * 60

/-- The constant `const int64_t IDLE_STATE_US = MS;` ("1 millisecond"). -/
def IDLE_STATE_US : Int := MS

/-- The constant `const int64_t COUNTDOWN_STATE_US = 20 * MINS;`. The comment
above it in the source reads "30 second"; the value is twenty minutes. -/
def COUNTDOWN_STATE_US : Int := 20 * MINS

/-- The constant `const int64_t EXTEND_RETRACT_STATE_US = 12500 * MS;`
("12.5 seconds"). -/
def EXTEND_RETRACT_STATE_US : Int := 12500 * MS

/-- The constant `const int64_t BTN_DISABLE_TIME_US = 500 * MS;`: the delay
before button presses register after a state change (excluding `IDLE`). -/
def BTN_DISABLE_TIME_US : Int := 500 * MS

/-- The macro `STATE_QUEUE_LEN`, `#define STATE_QUEUE_LEN 6`. -/
def STATE_QUEUE_LEN : Nat := 6

/-- One line of the diagnostic output of `loop()` (lines 158-164): the state
left, the state entered, and the microseconds until the next transition. -/
structure transition_record where
  prev_state : state_t
  new_state : state_t
  duration_us : Int
  deriving DecidableEq

/-- The program state: the four globals of lines 37-46, the last level written
to each output pin, and the transition records printed so far. -/
structure Sequencer where
  state_queue : List state_t
  next_state_transition_time_us : Int
  last_state_transition_time_us : Int
  is_extended : Bool
  HBRIDGE_A : Bool
  HBRIDGE_B : Bool
  GREEN_LED : Bool
  RED_LED : Bool
  serial : List transition_record
  deriving DecidableEq

/-- The element read `state_queue[i]`. -/
def Sequencer.slot (s : Sequencer) (i : Nat) : state_t :=
  s.state_queue.getD i state_t.IDLE

/-- The element write `state_queue[i] = v`. -/
def Sequencer.set_slot (s : Sequencer) (i : Nat) (v : state_t) : Sequencer :=
  { s with state_queue := s.state_queue.set i v }

/-- The loop `for (size_t i = lo; i < lo + n; ++i) body`, as `n` iterations of
`body` from index `lo`. -/
def for_range {α : Type} (body : Nat → α → α) : Nat → Nat → α → α
  | _, 0, acc => acc
  | i, n + 1, acc => for_range body (i + 1) n (body i acc)

/-- The loop `for (size_t i = lo; i < STATE_QUEUE_LEN; ++i) body`. -/
def for_to_queue_len (lo : Nat) (body : Nat → Sequencer → Sequencer)
    (s : Sequencer) : Sequencer :=
  for_range body lo (STATE_QUEUE_LEN - lo) s

/-! ## Motion driver (lines 48-64) -/

/-- The call `digitalWrite(pin, level)` on one of the four output pins. -/
def digitalWrite (s : Sequencer) (p : pin_t) (level : Bool) : Sequencer :=
  match p with
  | pin_t.HBRIDGE_A => { s with HBRIDGE_A := level }
  | pin_t.HBRIDGE_B => { s with HBRIDGE_B := level }
  | pin_t.GREEN_LED => { s with GREEN_LED := level }
  | pin_t.RED_LED => { s with RED_LED := level }

/-- The function `set_direction_out()`. -/
def set_direction_out (s : Sequencer) : Sequencer :=
  digitalWrite (digitalWrite s pin_t.HBRIDGE_A LOW) pin_t.HBRIDGE_B HIGH

/-- The function `set_direction_in()`. -/
def set_direction_in (s : Sequencer) : Sequencer :=
  digitalWrite (digitalWrite s pin_t.HBRIDGE_A HIGH) pin_t.HBRIDGE_B LOW

/-- The function `stop_motor()`. -/
def stop_motor (s : Sequencer) : Sequencer :=
  digitalWrite (digitalWrite s pin_t.HBRIDGE_A LOW) pin_t.HBRIDGE_B LOW

/-! ## Start-up (lines 37-46 and 89-104) -/

/-- The globals as their initialisers leave them; the levels of the four
output pins before the first write are parameters. -/
def static_init (a b g r : Bool) : Sequencer :=
  { state_queue := [state_t.IDLE, state_t.IDLE, state_t.IDLE,
                    state_t.IDLE, state_t.IDLE, state_t.IDLE]
    next_state_transition_time_us := 0
    last_state_transition_time_us := 0
    is_extended := false
    HBRIDGE_A := a
    HBRIDGE_B := b
    GREEN_LED := g
    RED_LED := r
    serial := [] }

/-- The function `setup()`, with `now` the value `esp_timer_get_time()` returns. -/
def setup (s : Sequencer) (now : Int) : Sequencer :=
  let s := stop_motor s
  let s := { s with next_state_transition_time_us := now }
  { s with last_state_transition_time_us := s.next_state_transition_time_us }

/-! ## `loop()`, first block: the timed transition (lines 113-166) -/

/-- The position latch, `switch (state_queue[0])` of lines 116-124. -/
def latch_position (s : Sequencer) : Sequencer :=
  match s.slot 0 with
  | state_t.EXTENDING => { s with is_extended := true }
  | state_t.RETRACTING => { s with is_extended := false }
  | _ => s

/-- The queue shift of lines 128-132. -/
def shift_queue (s : Sequencer) : Sequencer :=
  let s := for_to_queue_len 1 (fun i s => s.set_slot (i - 1) (s.slot i)) s
  s.set_slot (STATE_QUEUE_LEN - 1) state_t.IDLE

/-- The entry actions, `switch (state_queue[0])` of lines 135-153. -/
def enter_state (s : Sequencer) (current_time_us : Int) : Sequencer :=
  match s.slot 0 with
  | state_t.IDLE =>
      { stop_motor s with
        next_state_transition_time_us := current_time_us + IDLE_STATE_US }
  | state_t.COUNTDOWN =>
      { stop_motor s with
        next_state_transition_time_us := current_time_us + COUNTDOWN_STATE_US }
  | state_t.EXTENDING =>
      { set_direction_out s with
        next_state_transition_time_us := current_time_us + EXTEND_RETRACT_STATE_US }
  | state_t.RETRACTING =>
      { set_direction_in s with
        next_state_transition_time_us := current_time_us + EXTEND_RETRACT_STATE_US }

/-- The diagnostic print of lines 156-165. -/
def print_transition (s : Sequencer) (prev_state : state_t)
    (current_time_us : Int) : Sequencer :=
  if prev_state ≠ s.slot 0 then
    { s with
      serial := s.serial ++
        [{ prev_state := prev_state
           new_state := s.slot 0
           duration_us := s.next_state_transition_time_us - current_time_us }] }
  else s

/-- Lines 113-166: when the deadline lies before `current_time_us`, latch the
position, shift the queue, enter the new state and stamp the transition. -/
def loop_advance (s : Sequencer) (current_time_us : Int) : Sequencer :=
  if s.next_state_transition_time_us < current_time_us then
    let prev_state := s.slot 0
    let s := latch_position s
    let s := shift_queue s
    let s := enter_state s current_time_us
    let s := { s with last_state_transition_time_us := current_time_us }
    print_transition s prev_state current_time_us
  else s

/-! ## `loop()`, second block: the LEDs (lines 168-211) -/

/-- Lines 168-169: `remaining` and `odd_second`; C++ `/` and `%` truncate
towards zero. -/
def odd_second (s : Sequencer) (current_time_us : Int) : Bool :=
  let remaining := s.next_state_transition_time_us - current_time_us
  decide (Int.tmod (Int.tdiv remaining 1000000) 2 = 1)

/-- Lines 168-211. -/
def loop_leds (s : Sequencer) (current_time_us : Int) : Sequencer :=
  let odd := odd_second s current_time_us
  match s.slot 0 with
  | state_t.IDLE =>
      digitalWrite (digitalWrite s pin_t.GREEN_LED LOW) pin_t.RED_LED LOW
  | state_t.COUNTDOWN =>
      if odd then
        digitalWrite (digitalWrite s pin_t.GREEN_LED HIGH) pin_t.RED_LED LOW
      else
        digitalWrite (digitalWrite s pin_t.GREEN_LED LOW) pin_t.RED_LED HIGH
  | state_t.EXTENDING =>
      let s := if odd then digitalWrite s pin_t.GREEN_LED HIGH
               else digitalWrite s pin_t.GREEN_LED LOW
      digitalWrite s pin_t.RED_LED LOW
  | state_t.RETRACTING =>
      let s := if odd then digitalWrite s pin_t.RED_LED HIGH
               else digitalWrite s pin_t.RED_LED LOW
      digitalWrite s pin_t.GREEN_LED LOW

/-! ## `loop()`, third block: the buttons (lines 213-310) -/

/-- The loop `for (i = lo; i < STATE_QUEUE_LEN; ++i) state_queue[i] = IDLE;`. -/
def clear_from (lo : Nat) (s : Sequencer) : Sequencer :=
  for_to_queue_len lo (fun i s => s.set_slot i state_t.IDLE) s

/-- Lines 213-310, `switch (state_queue[0])` over the button levels. -/
def loop_buttons (s : Sequencer) (green_pressed red_pressed : Bool)
    (current_time_us : Int) : Sequencer :=
  match s.slot 0 with
  | state_t.IDLE =>
      if red_pressed then
        let s := if s.is_extended then s.set_slot 1 state_t.RETRACTING
                 else s.set_slot 1 state_t.EXTENDING
        clear_from 2 s
      else if green_pressed then
        let s := if !s.is_extended then s.set_slot 1 state_t.EXTENDING
                 else s.set_slot 1 state_t.IDLE
        let s := s.set_slot 2 state_t.RETRACTING
        let s := s.set_slot 3 state_t.COUNTDOWN
        let s := s.set_slot 4 state_t.EXTENDING
        clear_from 5 s
      else s
  | state_t.COUNTDOWN =>
      if current_time_us - s.last_state_transition_time_us < BTN_DISABLE_TIME_US then s
      else if green_pressed && red_pressed then
        { s with next_state_transition_time_us := current_time_us + IDLE_STATE_US }
      else s
  | state_t.EXTENDING =>
      if current_time_us - s.last_state_transition_time_us < BTN_DISABLE_TIME_US then s
      else if green_pressed then
        let s := { s with next_state_transition_time_us := current_time_us + IDLE_STATE_US }
        clear_from 1 s
      else if red_pressed then
        let s := { s with next_state_transition_time_us := current_time_us + IDLE_STATE_US }
        let s := s.set_slot 1 state_t.RETRACTING
        clear_from 2 s
      else s
  | state_t.RETRACTING =>
      if current_time_us - s.last_state_transition_time_us < BTN_DISABLE_TIME_US then s
      else if red_pressed then
        let s := { s with next_state_transition_time_us := current_time_us + IDLE_STATE_US }
        clear_from 1 s
      else if green_pressed then
        let s := { s with next_state_transition_time_us := current_time_us + IDLE_STATE_US }
        let s := s.set_slot 1 state_t.EXTENDING
        clear_from 2 s
      else s

/-! ## One iteration of `loop()` -/

/-- The function `loop()`: `green_btn` and `red_btn` are the levels
`digitalRead` returns for the two active-low buttons, `current_time_us` is the
value of `esp_timer_get_time()`. -/
def loop (s : Sequencer) (green_btn red_btn : Bool) (current_time_us : Int) : Sequencer :=
  let green_pressed := !green_btn
  let red_pressed := !red_btn
  let s := loop_advance s current_time_us
  let s := loop_leds s current_time_us
  loop_buttons s green_pressed red_pressed current_time_us

/-- The states the program passes through: `setup()` at any start time, then
any number of runs of the three blocks of `loop()` with any button levels and
any timestamps. -/
inductive Reachable : Sequencer → Prop where
  | boot (a b g r : Bool) (now : Int) : Reachable (setup (static_init a b g r) now)
  | advance (s : Sequencer) (now : Int) : Reachable s → Reachable (loop_advance s now)
  | leds (s : Sequencer) (now : Int) : Reachable s → Reachable (loop_leds s now)
  | buttons (s : Sequencer) (green_pressed red_pressed : Bool) (now : Int) :
      Reachable s → Reachable (loop_buttons s green_pressed red_pressed now)

/-- All six slots hold `IDLE`. -/
def all_idle : List state_t :=
  [state_t.IDLE, state_t.IDLE, state_t.IDLE, state_t.IDLE, state_t.IDLE, state_t.IDLE]

/-- The loop run with both buttons released (both pins `HIGH`), one iteration
at each of the given timestamps. -/
def run_released (s : Sequencer) (times : List Int) : Sequencer :=
  times.foldl (fun s t => loop s HIGH HIGH t) s

/-! ## The constant expressions in 32-bit `int` arithmetic (lines 22-34)

The macros expand to products of `int` literals; the product is computed in
`int` and only then converted to `int64_t`. -/

/-- The largest value of a 32-bit signed `int`. -/
def INT_MAX : Int := 2147483647

/-- The smallest value of a 32-bit signed `int`. -/
def INT_MIN : Int := -2147483648

/-- The product of two `int` values: `none` when it does not fit in 32 bits. -/
def int_mul (a b : Int) : Option Int :=
  if INT_MIN ≤ a * b ∧ a * b ≤ INT_MAX then some (a * b) else none

/-- The expansion of `MS` as an `int` expression: the literal `1000`. -/
def MS_int : Option Int := some 1000

/-- The expansion of `S` as an `int` expression: `(MS * 1000)`. -/
def S_int : Option Int := MS_int.bind (fun ms => int_mul ms 1000)

/-- The expansion of `MINS` as an `int` expression: `(S * 60)`. -/
def MINS_int : Option Int := S_int.bind (fun s => int_mul s 60)

/-- The initialiser `20 * MINS` as an `int` expression. -/
def COUNTDOWN_STATE_US_int : Option Int := MINS_int.bind (fun m => int_mul 20 m)

/-- The initialiser `12500 * MS` as an `int` expression. -/
def EXTEND_RETRACT_STATE_US_int : Option Int := MS_int.bind (fun ms => int_mul 12500 ms)

/-- The initialiser `500 * MS` as an `int` expression. -/
def BTN_DISABLE_TIME_US_int : Option Int := MS_int.bind (fun ms => int_mul 500 ms)

/-! ## Calls and the time the deadline was last written -/

/-- A run of one of the three blocks of `loop()` with its arguments. -/
inductive call_t where
  | advance (now : Int)
  | leds (now : Int)
  | buttons (green_pressed red_pressed : Bool) (now : Int)

/-- The timestamp a call is made with. -/
def call_t.time : call_t → Int
  | call_t.advance now => now
  | call_t.leds now => now
  | call_t.buttons _ _ now => now

/-- The effect of a call on the state. -/
def call_t.run (c : call_t) (s : Sequencer) : Sequencer :=
  match c with
  | call_t.advance now => loop_advance s now
  | call_t.leds now => loop_leds s now
  | call_t.buttons green_pressed red_pressed now => loop_buttons s green_pressed red_pressed now

/-- Whether the path a call takes through the source contains an assignment to
`next_state_transition_time_us`: lines 139-151 inside the test of line 113,
and lines 259, 270, 278, 294 and 302 behind their lockout and button tests. -/
def call_t.writes_deadline (c : call_t) (s : Sequencer) : Bool :=
  match c with
  | call_t.advance now => decide (s.next_state_transition_time_us < now)
  | call_t.leds _ => false
  | call_t.buttons green_pressed red_pressed now =>
      match s.slot 0 with
      | state_t.IDLE => false
      | state_t.COUNTDOWN =>
          if now - s.last_state_transition_time_us < BTN_DISABLE_TIME_US then false
          else green_pressed && red_pressed
      | state_t.EXTENDING =>
          if now - s.last_state_transition_time_us < BTN_DISABLE_TIME_US then false
          else green_pressed || red_pressed
      | state_t.RETRACTING =>
          if now - s.last_state_transition_time_us < BTN_DISABLE_TIME_US then false
          else red_pressed || green_pressed

/-- A state paired with the timestamp of the call that last assigned
`next_state_transition_time_us`, after one more call. -/
def traced_step (p : Sequencer × Int) (c : call_t) : Sequencer × Int :=
  (c.run p.1, if c.writes_deadline p.1 then c.time else p.2)

/-- The state and the timestamp of the last deadline assignment after `setup()`
at time `start` (which assigns the deadline) and the given calls. -/
def traced_run (a b g r : Bool) (start : Int) (calls : List call_t) : Sequencer × Int :=
  calls.foldl traced_step (setup (static_init a b g r) start, start)

/-- Iterations of `loop()`, one for each triple of the two button pin levels
and the timestamp. -/
def run_loop (s : Sequencer) (inputs : List (Bool × Bool × Int)) : Sequencer :=
  inputs.foldl (fun s i => loop s i.1 i.2.1 i.2.2) s

/-! ## The LED table of the specification -/

/-- The blink phase as the specification words it, with floor division and
the non-negative remainder: `(remaining / 1_000_000) mod 2 == 1`. -/
def phase_floor (remaining : Int) : Bool :=
  decide (Int.fmod (Int.fdiv remaining 1000000) 2 = 1)

/-- The blink phase as C++ computes `(remaining / 1000000) % 2 == 1`, with
division and remainder truncating towards zero. -/
def phase_trunc (remaining : Int) : Bool :=
  decide (Int.tmod (Int.tdiv remaining 1000000) 2 = 1)

/-- The output table of the specification's `render_feedback`: the levels of
(green LED, red LED) for an active state and a blink phase. -/
def led_table (active : state_t) (phase : Bool) : Bool × Bool :=
  match active with
  | state_t.IDLE => (false, false)
  | state_t.COUNTDOWN => (phase, !phase)
  | state_t.EXTENDING => (phase, false)
  | state_t.RETRACTING => (false, phase)

/-! ## The mirror symmetry of the specification -/

/-- The swap of `EXTENDING` and `RETRACTING`, fixing `IDLE` and `COUNTDOWN`. -/
def mirror_state : state_t → state_t
  | state_t.EXTENDING => state_t.RETRACTING
  | state_t.RETRACTING => state_t.EXTENDING
  | x => x

/-- The state with `mirror_state` applied to every queue slot and all other
fields kept. -/
def mirror (s : Sequencer) : Sequencer :=
  { s with state_queue := s.state_queue.map mirror_state }

/-! ## The motor command of the specification -/

/-- The motor command the specification gives an active state, as the levels
of (`HBRIDGE_A`, `HBRIDGE_B`): stop for `IDLE` and `COUNTDOWN`, drive-out for
`EXTENDING`, drive-in for `RETRACTING`. -/
def motor_table (active : state_t) : Bool × Bool :=
  match active with
  | state_t.IDLE => (LOW, LOW)
  | state_t.COUNTDOWN => (LOW, LOW)
  | state_t.EXTENDING => (LOW, HIGH)
  | state_t.RETRACTING => (HIGH, LOW)

/-! ## Sample states -/

/-- A sample state: `EXTENDING` entered at time 0 with the rest of a full cycle
queued behind it; the position flag still says retracted. -/
def sample_extending : Sequencer :=
  { state_queue := [state_t.EXTENDING, state_t.RETRACTING, state_t.COUNTDOWN,
                    state_t.EXTENDING, state_t.IDLE, state_t.IDLE]
    next_state_transition_time_us := 12500000
    last_state_transition_time_us := 0
    is_extended := false
    HBRIDGE_A := false
    HBRIDGE_B := true
    GREEN_LED := false
    RED_LED := false
    serial := [] }

/-- A sample state: `RETRACTING` entered at time 0, followed by the countdown
and the final extension; the position flag says extended. -/
def sample_retracting : Sequencer :=
  { state_queue := [state_t.RETRACTING, state_t.COUNTDOWN, state_t.EXTENDING,
                    state_t.IDLE, state_t.IDLE, state_t.IDLE]
    next_state_transition_time_us := 12500000
    last_state_transition_time_us := 0
    is_extended := true
    HBRIDGE_A := true
    HBRIDGE_B := false
    GREEN_LED := false
    RED_LED := false
    serial := [] }

/-- A sample state: `COUNTDOWN` entered at time 0 with the final extension
queued. -/
def sample_countdown : Sequencer :=
  { state_queue := [state_t.COUNTDOWN, state_t.EXTENDING, state_t.IDLE,
                    state_t.IDLE, state_t.IDLE, state_t.IDLE]
    next_state_transition_time_us := 1200000000
    last_state_transition_time_us := 0
    is_extended := false
    HBRIDGE_A := false
    HBRIDGE_B := false
    GREEN_LED := false
    RED_LED := true
    serial := [] }

/-- A sample state: the program right after `setup()` ran at time 0. -/
def sample_idle : Sequencer :=
  setup (static_init false false false false) 0

/-! ## Auxiliary lemmas -/

/-- A queue of `STATE_QUEUE_LEN` states is a list of six named slots. -/
theorem queue_six (q : List state_t) (h : q.length = STATE_QUEUE_LEN) :
    ∃ a b c d e f, q = [a, b, c, d, e, f] := by
  match q, h with
  | [a, b, c, d, e, f], _ => exact ⟨a, b, c, d, e, f, rfl⟩

/-- The second block of `loop()` writes the two LED pins and nothing else. -/
theorem loop_leds_frame (s : Sequencer) (now : Int) :
    ∃ g r, loop_leds s now = { s with GREEN_LED := g, RED_LED := r } := by
  unfold loop_leds
  simp only [digitalWrite]
  split
  · exact ⟨_, _, rfl⟩
  · split <;> exact ⟨_, _, rfl⟩
  · split <;> exact ⟨_, _, rfl⟩
  · split <;> exact ⟨_, _, rfl⟩

/-- With both buttons released the third block of `loop()` changes nothing. -/
theorem loop_buttons_released (s : Sequencer) (now : Int) :
    loop_buttons s false false now = s := by
  unfold loop_buttons
  split <;> simp

/-- The transition block on a six-slot queue whose deadline has passed, slot
by slot. -/
theorem loop_advance_due (s : Sequencer) (now : Int) (a b c d e f : state_t)
    (hq : s.state_queue = [a, b, c, d, e, f])
    (hdue : s.next_state_transition_time_us < now) :
    (loop_advance s now).state_queue = [b, c, d, e, f, state_t.IDLE]
    ∧ (loop_advance s now).last_state_transition_time_us = now
    ∧ (loop_advance s now).next_state_transition_time_us =
        now + (match b with
               | state_t.IDLE => 1000
               | state_t.COUNTDOWN => 1200000000
               | state_t.EXTENDING => 12500000
               | state_t.RETRACTING => 12500000)
    ∧ (loop_advance s now).is_extended =
        (match a with
         | state_t.EXTENDING => true
         | state_t.RETRACTING => false
         | _ => s.is_extended)
    ∧ (loop_advance s now).HBRIDGE_A = (match b with | state_t.RETRACTING => HIGH | _ => LOW)
    ∧ (loop_advance s now).HBRIDGE_B = (match b with | state_t.EXTENDING => HIGH | _ => LOW) := by
  obtain ⟨q, nt, lt, ie, ha, hb, g, r, log⟩ := s
  simp only at hq hdue
  subst hq
  cases a <;> cases b <;>
    simp [loop_advance, hdue, latch_position, shift_queue, enter_state, print_transition,
      Sequencer.slot, Sequencer.set_slot, for_to_queue_len, for_range, STATE_QUEUE_LEN,
      stop_motor, set_direction_out, set_direction_in, digitalWrite, LOW, HIGH,
      IDLE_STATE_US, COUNTDOWN_STATE_US, EXTEND_RETRACT_STATE_US, MS, S, MINS]

/-- The transition block does nothing while the deadline has not passed. -/
theorem loop_advance_not_due (s : Sequencer) (now : Int)
    (h : ¬ s.next_state_transition_time_us < now) : loop_advance s now = s := by
  simp [loop_advance, h]

/-- The clearing loop from slot 1 on a six-slot queue. -/
theorem clear_from_one (a b c d e f : state_t) (nt lt : Int) (ie ha hb g r : Bool)
    (log : List transition_record) :
    clear_from 1 ⟨[a, b, c, d, e, f], nt, lt, ie, ha, hb, g, r, log⟩
      = ⟨[a, state_t.IDLE, state_t.IDLE, state_t.IDLE, state_t.IDLE, state_t.IDLE],
          nt, lt, ie, ha, hb, g, r, log⟩ := rfl

/-- The clearing loop from slot 2 on a six-slot queue. -/
theorem clear_from_two (a b c d e f : state_t) (nt lt : Int) (ie ha hb g r : Bool)
    (log : List transition_record) :
    clear_from 2 ⟨[a, b, c, d, e, f], nt, lt, ie, ha, hb, g, r, log⟩
      = ⟨[a, b, state_t.IDLE, state_t.IDLE, state_t.IDLE, state_t.IDLE],
          nt, lt, ie, ha, hb, g, r, log⟩ := rfl

/-- The clearing loop from slot 5 on a six-slot queue. -/
theorem clear_from_five (a b c d e f : state_t) (nt lt : Int) (ie ha hb g r : Bool)
    (log : List transition_record) :
    clear_from 5 ⟨[a, b, c, d, e, f], nt, lt, ie, ha, hb, g, r, log⟩
      = ⟨[a, b, c, d, e, state_t.IDLE], nt, lt, ie, ha, hb, g, r, log⟩ := rfl

/-- The third block of `loop()` with `IDLE` active, on a six-slot queue. -/
theorem loop_buttons_idle (b c d e f : state_t) (nt lt : Int) (ie ha hb g r : Bool)
    (log : List transition_record) (green_pressed red_pressed : Bool) (now : Int) :
    loop_buttons ⟨[state_t.IDLE, b, c, d, e, f], nt, lt, ie, ha, hb, g, r, log⟩
        green_pressed red_pressed now
      = if red_pressed then
          ⟨[state_t.IDLE, if ie then state_t.RETRACTING else state_t.EXTENDING,
            state_t.IDLE, state_t.IDLE, state_t.IDLE, state_t.IDLE],
            nt, lt, ie, ha, hb, g, r, log⟩
        else if green_pressed then
          ⟨[state_t.IDLE, if ie then state_t.IDLE else state_t.EXTENDING,
            state_t.RETRACTING, state_t.COUNTDOWN, state_t.EXTENDING, state_t.IDLE],
            nt, lt, ie, ha, hb, g, r, log⟩
        else ⟨[state_t.IDLE, b, c, d, e, f], nt, lt, ie, ha, hb, g, r, log⟩ := by
  cases green_pressed <;> cases red_pressed <;> cases ie <;> rfl

/-- The third block of `loop()` with `COUNTDOWN` active, on a six-slot queue. -/
theorem loop_buttons_countdown (b c d e f : state_t) (nt lt : Int) (ie ha hb g r : Bool)
    (log : List transition_record) (green_pressed red_pressed : Bool) (now : Int) :
    loop_buttons ⟨[state_t.COUNTDOWN, b, c, d, e, f], nt, lt, ie, ha, hb, g, r, log⟩
        green_pressed red_pressed now
      = if now - lt < 500000 then
          ⟨[state_t.COUNTDOWN, b, c, d, e, f], nt, lt, ie, ha, hb, g, r, log⟩
        else if green_pressed && red_pressed then
          ⟨[state_t.COUNTDOWN, b, c, d, e, f], now + 1000, lt, ie, ha, hb, g, r, log⟩
        else ⟨[state_t.COUNTDOWN, b, c, d, e, f], nt, lt, ie, ha, hb, g, r, log⟩ := by
  simp only [loop_buttons, Sequencer.slot, List.getD_cons_zero,
    BTN_DISABLE_TIME_US, IDLE_STATE_US, MS]
  norm_num

/-- The third block of `loop()` with `EXTENDING` active, on a six-slot queue. -/
theorem loop_buttons_extending (b c d e f : state_t) (nt lt : Int) (ie ha hb g r : Bool)
    (log : List transition_record) (green_pressed red_pressed : Bool) (now : Int) :
    loop_buttons ⟨[state_t.EXTENDING, b, c, d, e, f], nt, lt, ie, ha, hb, g, r, log⟩
        green_pressed red_pressed now
      = if now - lt < 500000 then
          ⟨[state_t.EXTENDING, b, c, d, e, f], nt, lt, ie, ha, hb, g, r, log⟩
        else if green_pressed then
          ⟨[state_t.EXTENDING, state_t.IDLE, state_t.IDLE, state_t.IDLE, state_t.IDLE,
            state_t.IDLE], now + 1000, lt, ie, ha, hb, g, r, log⟩
        else if red_pressed then
          ⟨[state_t.EXTENDING, state_t.RETRACTING, state_t.IDLE, state_t.IDLE, state_t.IDLE,
            state_t.IDLE], now + 1000, lt, ie, ha, hb, g, r, log⟩
        else ⟨[state_t.EXTENDING, b, c, d, e, f], nt, lt, ie, ha, hb, g, r, log⟩ := by
  simp only [loop_buttons, Sequencer.slot, List.getD_cons_zero, Sequencer.set_slot,
    List.set_cons_succ, List.set_cons_zero, clear_from_one, clear_from_two,
    BTN_DISABLE_TIME_US, IDLE_STATE_US, MS]
  norm_num

/-- The third block of `loop()` with `RETRACTING` active, on a six-slot queue. -/
theorem loop_buttons_retracting (b c d e f : state_t) (nt lt : Int) (ie ha hb g r : Bool)
    (log : List transition_record) (green_pressed red_pressed : Bool) (now : Int) :
    loop_buttons ⟨[state_t.RETRACTING, b, c, d, e, f], nt, lt, ie, ha, hb, g, r, log⟩
        green_pressed red_pressed now
      = if now - lt < 500000 then
          ⟨[state_t.RETRACTING, b, c, d, e, f], nt, lt, ie, ha, hb, g, r, log⟩
        else if red_pressed then
          ⟨[state_t.RETRACTING, state_t.IDLE, state_t.IDLE, state_t.IDLE, state_t.IDLE,
            state_t.IDLE], now + 1000, lt, ie, ha, hb, g, r, log⟩
        else if green_pressed then
          ⟨[state_t.RETRACTING, state_t.EXTENDING, state_t.IDLE, state_t.IDLE, state_t.IDLE,
            state_t.IDLE], now + 1000, lt, ie, ha, hb, g, r, log⟩
        else ⟨[state_t.RETRACTING, b, c, d, e, f], nt, lt, ie, ha, hb, g, r, log⟩ := by
  simp only [loop_buttons, Sequencer.slot, List.getD_cons_zero, Sequencer.set_slot,
    List.set_cons_succ, List.set_cons_zero, clear_from_one, clear_from_two,
    BTN_DISABLE_TIME_US, IDLE_STATE_US, MS]
  norm_num

/-- The third block of `loop()` never writes `is_extended`, the timestamp of
the last transition, the motor pins, the LED pins or the diagnostic output, and
it keeps slot 0 and the six-slot shape of the queue; the last slot is kept or
set to `IDLE`. -/
theorem loop_buttons_frame (s : Sequencer) (green_pressed red_pressed : Bool) (now : Int)
    (hlen : s.state_queue.length = STATE_QUEUE_LEN) :
    ∃ nt b c d e f,
      loop_buttons s green_pressed red_pressed now =
        { s with next_state_transition_time_us := nt
                 state_queue := [s.slot 0, b, c, d, e, f] }
      ∧ (f = state_t.IDLE ∨ f = s.slot 5) := by
  obtain ⟨q, nt, lt, ie, ha, hb, g, r, log⟩ := s
  obtain ⟨a, b, c, d, e, f, rfl⟩ := queue_six q hlen
  cases a
  · rw [loop_buttons_idle]
    split_ifs <;> exact ⟨_, _, _, _, _, _, rfl, by simp [Sequencer.slot]⟩
  · rw [loop_buttons_countdown]
    split_ifs <;> exact ⟨_, _, _, _, _, _, rfl, by simp [Sequencer.slot]⟩
  · rw [loop_buttons_extending]
    split_ifs <;> exact ⟨_, _, _, _, _, _, rfl, by simp [Sequencer.slot]⟩
  · rw [loop_buttons_retracting]
    split_ifs <;> exact ⟨_, _, _, _, _, _, rfl, by simp [Sequencer.slot]⟩

/-- Every reachable state has a six-slot queue whose last slot is `IDLE`. -/
theorem reachable_queue_shape (s : Sequencer) (h : Reachable s) :
    s.state_queue.length = STATE_QUEUE_LEN ∧ s.slot 5 = state_t.IDLE := by
  induction h with
  | boot a b g r now => exact ⟨rfl, rfl⟩
  | advance s now _ ih =>
    by_cases hdue : s.next_state_transition_time_us < now
    · obtain ⟨a, b, c, d, e, f, hq⟩ := queue_six s.state_queue ih.1
      obtain ⟨h1, -⟩ := loop_advance_due s now a b c d e f hq hdue
      simp [Sequencer.slot, h1, STATE_QUEUE_LEN]
    · rw [loop_advance_not_due s now hdue]
      exact ih
  | leds s now _ ih =>
    obtain ⟨g, r, h⟩ := loop_leds_frame s now
    rw [h]
    exact ih
  | buttons s gp rp now _ ih =>
    obtain ⟨nt, b, c, d, e, f, h, hf⟩ := loop_buttons_frame s gp rp now ih.1
    rw [h]
    refine ⟨rfl, ?_⟩
    rcases hf with hf | hf
    · simp [Sequencer.slot, hf]
    · show f = state_t.IDLE
      rw [hf]
      exact ih.2

/-- One iteration of `loop()` with both buttons released, on a six-slot queue
whose deadline has passed: the transition fires and the other two blocks touch
neither the queue, the timestamps, the position nor the motor pins. -/
theorem loop_released_due (s : Sequencer) (now : Int) (a b c d e f : state_t)
    (hq : s.state_queue = [a, b, c, d, e, f])
    (hdue : s.next_state_transition_time_us < now) :
    (loop s HIGH HIGH now).state_queue = [b, c, d, e, f, state_t.IDLE]
    ∧ (loop s HIGH HIGH now).next_state_transition_time_us =
        now + (match b with
               | state_t.IDLE => 1000
               | state_t.COUNTDOWN => 1200000000
               | state_t.EXTENDING => 12500000
               | state_t.RETRACTING => 12500000)
    ∧ (loop s HIGH HIGH now).is_extended =
        (match a with
         | state_t.EXTENDING => true
         | state_t.RETRACTING => false
         | _ => s.is_extended) := by
  obtain ⟨h1, -, h3, h4, -, -⟩ := loop_advance_due s now a b c d e f hq hdue
  obtain ⟨g, r, hl⟩ := loop_leds_frame (loop_advance s now) now
  have hloop : loop s HIGH HIGH now = loop_leds (loop_advance s now) now := by
    simp only [loop, HIGH, Bool.not_true]
    exact loop_buttons_released _ _
  rw [hloop, hl]
  exact ⟨h1, h3, h4⟩

/-- A transition block whose deadline has passed leaves a deadline after `now`,
whatever the queue holds. -/
theorem loop_advance_next_gt (s : Sequencer) (now : Int)
    (hdue : s.next_state_transition_time_us < now) :
    now < (loop_advance s now).next_state_transition_time_us := by
  have hent : ∀ x : Sequencer, now < (enter_state x now).next_state_transition_time_us := by
    intro x
    unfold enter_state
    split <;>
      simp [IDLE_STATE_US, COUNTDOWN_STATE_US, EXTEND_RETRACT_STATE_US, MS, S, MINS]
  have h := hent (shift_queue (latch_position s))
  simp only [loop_advance, hdue, if_true, print_transition]
  split_ifs <;> exact h

/-- A call of one of the three blocks of `loop()` on a reachable state is
reachable. -/
theorem reachable_call (s : Sequencer) (c : call_t) (h : Reachable s) :
    Reachable (c.run s) := by
  cases c with
  | advance t => exact Reachable.advance s t h
  | leds t => exact Reachable.leds s t h
  | buttons g r t => exact Reachable.buttons s g r t h

/-- One iteration of `loop()` on a reachable state is reachable. -/
theorem reachable_loop (s : Sequencer) (green_btn red_btn : Bool) (now : Int)
    (h : Reachable s) : Reachable (loop s green_btn red_btn now) :=
  Reachable.buttons _ _ _ _ (Reachable.leds _ _ (Reachable.advance _ _ h))

/-- A call that assigns the deadline leaves it after the call's timestamp; a
call that does not assign it leaves it as it was. -/
theorem call_deadline (s : Sequencer) (c : call_t)
    (hlen : s.state_queue.length = STATE_QUEUE_LEN) :
    (c.writes_deadline s = true → c.time < (c.run s).next_state_transition_time_us)
    ∧ (c.writes_deadline s = false →
        (c.run s).next_state_transition_time_us = s.next_state_transition_time_us) := by
  cases c with
  | advance t =>
    simp only [call_t.writes_deadline, call_t.run, call_t.time, decide_eq_true_eq,
      decide_eq_false_iff_not]
    exact ⟨fun h => loop_advance_next_gt s t h,
      fun h => by rw [loop_advance_not_due s t h]⟩
  | leds t =>
    obtain ⟨g, r, h⟩ := loop_leds_frame s t
    simp only [call_t.writes_deadline, call_t.run]
    rw [h]
    simp
  | buttons gp rp t =>
    obtain ⟨q, nt, lt, ie, ha, hb, g, r, log⟩ := s
    obtain ⟨a, b, c, d, e, f, rfl⟩ := queue_six q hlen
    simp only [call_t.writes_deadline, call_t.run, call_t.time, Sequencer.slot,
      List.getD_cons_zero, BTN_DISABLE_TIME_US, MS]
    cases a
    · rw [loop_buttons_idle]
      split_ifs <;> simp
    · rw [loop_buttons_countdown]
      norm_num
      split_ifs <;> simp_all
    · rw [loop_buttons_extending]
      norm_num
      split_ifs <;> simp_all
    · rw [loop_buttons_retracting]
      norm_num
      split_ifs <;> simp_all

/-- Along every run from `setup()` the state is reachable and the deadline is
not before the timestamp of the call that last assigned it. -/
theorem traced_run_invariant (a b g r : Bool) (start : Int) (calls : List call_t) :
    Reachable (traced_run a b g r start calls).1
    ∧ (traced_run a b g r start calls).2
        ≤ (traced_run a b g r start calls).1.next_state_transition_time_us := by
  have hgen : ∀ (cs : List call_t) (p : Sequencer × Int),
      Reachable p.1 ∧ p.2 ≤ p.1.next_state_transition_time_us →
      Reachable (cs.foldl traced_step p).1
      ∧ (cs.foldl traced_step p).2
          ≤ (cs.foldl traced_step p).1.next_state_transition_time_us := by
    intro cs
    induction cs with
    | nil => intro p hp; exact hp
    | cons c cs ih =>
      intro p hp
      simp only [List.foldl]
      apply ih
      obtain ⟨hw, hn⟩ := call_deadline p.1 c (reachable_queue_shape p.1 hp.1).1
      refine ⟨reachable_call p.1 c hp.1, ?_⟩
      simp only [traced_step]
      cases hc : c.writes_deadline p.1
      · simp only [Bool.false_eq_true, if_false]
        rw [hn hc]
        exact hp.2
      · simp only [if_true]
        exact le_of_lt (hw hc)
  exact hgen calls _ ⟨Reachable.boot a b g r start, le_refl _⟩

/-- After the transition block has run with timestamp `now`, the deadline is
not before `now`. -/
theorem deadline_not_before_now (s : Sequencer) (now : Int) :
    0 ≤ (loop_advance s now).next_state_transition_time_us - now := by
  by_cases hdue : s.next_state_transition_time_us < now
  · have h := loop_advance_next_gt s now hdue
    omega
  · rw [loop_advance_not_due s now hdue]
    omega

/-- On a non-negative value the truncating and the floor computation of the
blink phase agree. -/
theorem phase_trunc_eq_floor (remaining : Int) (h : 0 ≤ remaining) :
    phase_trunc remaining = phase_floor remaining := by
  have h1 : Int.tdiv remaining 1000000 = remaining / 1000000 :=
    Int.tdiv_eq_ediv h (by norm_num)
  have h2 : Int.fdiv remaining 1000000 = remaining / 1000000 :=
    Int.fdiv_eq_ediv _ (by norm_num)
  have h3 : 0 ≤ remaining / 1000000 := Int.ediv_nonneg h (by norm_num)
  simp only [phase_trunc, phase_floor]
  rw [h1, h2, Int.tmod_eq_emod h3 (by norm_num), Int.fmod_eq_emod _ (by norm_num)]

/-- On a negative value the two computations of the blink phase can differ:
at minus one second truncation gives remainder -1, floor gives remainder 1. -/
theorem phase_readings_differ_negative :
    phase_trunc (-1000000) = false ∧ phase_floor (-1000000) = true := by
  decide

/-- The LED block writes the two LEDs as the table prescribes for the active
state and the truncating blink phase. -/
theorem loop_leds_table (s : Sequencer) (now : Int) :
    ((loop_leds s now).GREEN_LED, (loop_leds s now).RED_LED)
      = led_table (s.slot 0) (phase_trunc (s.next_state_transition_time_us - now)) := by
  have hodd : odd_second s now = phase_trunc (s.next_state_transition_time_us - now) := rfl
  unfold loop_leds
  simp only [hodd]
  cases hs : s.slot 0 <;>
    cases hp : phase_trunc (s.next_state_transition_time_us - now) <;>
    simp [led_table, digitalWrite, LOW, HIGH]

/-- In every reachable state the motor pins hold the command of the active
state. -/
theorem reachable_motor (s : Sequencer) (h : Reachable s) :
    (s.HBRIDGE_A, s.HBRIDGE_B) = motor_table (s.slot 0) := by
  induction h with
  | boot a b g r now => rfl
  | advance s now hs ih =>
    by_cases hdue : s.next_state_transition_time_us < now
    · obtain ⟨a, b, c, d, e, f, hq⟩ := queue_six s.state_queue (reachable_queue_shape s hs).1
      obtain ⟨h1, -, -, -, h5, h6⟩ := loop_advance_due s now a b c d e f hq hdue
      have h0 : (loop_advance s now).slot 0 = b := by simp [Sequencer.slot, h1]
      rw [h0, h5, h6]
      cases b <;> rfl
    · rw [loop_advance_not_due s now hdue]
      exact ih
  | leds s now _ ih =>
    obtain ⟨g, r, h⟩ := loop_leds_frame s now
    rw [h]
    exact ih
  | buttons s gp rp now hs ih =>
    obtain ⟨nt, b, c, d, e, f, h, -⟩ :=
      loop_buttons_frame s gp rp now (reachable_queue_shape s hs).1
    rw [h]
    exact ih

/-- Every state that iterations of `loop()` lead to from a reachable state is
reachable. -/
theorem reachable_run_loop (inputs : List (Bool × Bool × Int)) (s : Sequencer)
    (h : Reachable s) : Reachable (run_loop s inputs) := by
  induction inputs generalizing s with
  | nil => exact h
  | cons i rest ih =>
    simp only [run_loop, List.foldl]
    exact ih _ (reachable_loop s i.1 i.2.1 i.2.2 h)

/-! ## C1: an aborted motion -/

/-- C1, as stated, fails: in `sample_extending` (slot 0 `EXTENDING`,
`is_extended = false`, entered at time 0) the advance button is pressed at
600 ms, past the lockout; the transition at 601.001 ms is due, makes `IDLE` the
active state, and sets `is_extended` to true. In `sample_retracting`
(`is_extended = true`) the retract button at 600 ms followed by the due
transition sets `is_extended` to false. -/
theorem aborted_motion_counterexample :
    sample_extending.slot 0 = state_t.EXTENDING
    ∧ sample_extending.is_extended = false
    ∧ 600000 - sample_extending.last_state_transition_time_us ≥ 500000
    ∧ (loop_buttons sample_extending true false 600000).next_state_transition_time_us < 601001
    ∧ (loop_advance (loop_buttons sample_extending true false 600000) 601001).slot 0
        = state_t.IDLE
    ∧ (loop_advance (loop_buttons sample_extending true false 600000) 601001).is_extended
        = true
    ∧ sample_retracting.slot 0 = state_t.RETRACTING
    ∧ sample_retracting.is_extended = true
    ∧ (loop_buttons sample_retracting false true 600000).next_state_transition_time_us < 601001
    ∧ (loop_advance (loop_buttons sample_retracting false true 600000) 601001).is_extended
        = false := by
  decide

/-- C1, amended: when `EXTENDING` is active, the lockout is over and the
advance button is pressed, the next due transition makes `IDLE` the active
state and sets `is_extended` to true, whatever it was: the latch reads the
replaced state and does not see that the motion was cut short. Likewise an
aborted `RETRACTING` (retract button) sets `is_extended` to false. -/
theorem aborted_motion_latches_position (s : Sequencer) (other : Bool) (now t : Int)
    (hlen : s.state_queue.length = STATE_QUEUE_LEN)
    (hlock : now - s.last_state_transition_time_us ≥ 500000) :
    (s.slot 0 = state_t.EXTENDING →
      (loop_buttons s true other now).next_state_transition_time_us < t →
        (loop_advance (loop_buttons s true other now) t).slot 0 = state_t.IDLE
        ∧ (loop_advance (loop_buttons s true other now) t).is_extended = true)
    ∧ (s.slot 0 = state_t.RETRACTING →
      (loop_buttons s other true now).next_state_transition_time_us < t →
        (loop_advance (loop_buttons s other true now) t).slot 0 = state_t.IDLE
        ∧ (loop_advance (loop_buttons s other true now) t).is_extended = false) := by
  obtain ⟨q, nt, lt, ie, ha, hb, g, r, log⟩ := s
  obtain ⟨a, b, c, d, e, f, rfl⟩ := queue_six q hlen
  simp only [ge_iff_le] at hlock
  have hl : ¬ (now - lt < 500000) := by omega
  constructor
  · intro hact
    simp only [Sequencer.slot, List.getD_cons_zero] at hact
    subst hact
    have hb : loop_buttons ⟨[state_t.EXTENDING, b, c, d, e, f], nt, lt, ie, ha, hb, g, r, log⟩
        true other now
        = ⟨[state_t.EXTENDING, state_t.IDLE, state_t.IDLE, state_t.IDLE, state_t.IDLE,
            state_t.IDLE], now + 1000, lt, ie, ha, hb, g, r, log⟩ := by
      simp [loop_buttons, Sequencer.slot, Sequencer.set_slot, clear_from, for_to_queue_len,
        for_range, STATE_QUEUE_LEN, BTN_DISABLE_TIME_US, IDLE_STATE_US, MS, hl]
    rw [hb]
    intro hdue
    obtain ⟨h1, -, -, h4, -, -⟩ := loop_advance_due _ t _ _ _ _ _ _ rfl hdue
    simp [Sequencer.slot, h1, h4]
  · intro hact
    simp only [Sequencer.slot, List.getD_cons_zero] at hact
    subst hact
    have hb : loop_buttons ⟨[state_t.RETRACTING, b, c, d, e, f], nt, lt, ie, ha, hb, g, r, log⟩
        other true now
        = ⟨[state_t.RETRACTING, state_t.IDLE, state_t.IDLE, state_t.IDLE, state_t.IDLE,
            state_t.IDLE], now + 1000, lt, ie, ha, hb, g, r, log⟩ := by
      simp [loop_buttons, Sequencer.slot, Sequencer.set_slot, clear_from, for_to_queue_len,
        for_range, STATE_QUEUE_LEN, BTN_DISABLE_TIME_US, IDLE_STATE_US, MS, hl]
    rw [hb]
    intro hdue
    obtain ⟨h1, -, -, h4, -, -⟩ := loop_advance_due _ t _ _ _ _ _ _ rfl hdue
    simp [Sequencer.slot, h1, h4]

/-- C1, amended, at `sample_extending`: advance pressed at 600 ms, transition
at 601.001 ms. -/
theorem aborted_motion_latches_position_witness :
    sample_extending.state_queue.length = STATE_QUEUE_LEN
    ∧ 600000 - sample_extending.last_state_transition_time_us ≥ 500000
    ∧ (loop_advance (loop_buttons sample_extending true false 600000) 601001).slot 0
        = state_t.IDLE
    ∧ (loop_advance (loop_buttons sample_extending true false 600000) 601001).is_extended
        = true :=
  ⟨by decide, by decide,
    (aborted_motion_latches_position sample_extending false 600000 601001
      (by decide) (by decide)).1 (by decide) (by decide)⟩

/-! ## C2: the expiry test -/

/-- C2, as stated, fails: `sample_extending` has its deadline at 12.5 s, and
the transition block run at exactly 12.5 s leaves the state as it is; run one
microsecond later it shifts the queue. -/
theorem advance_at_deadline_counterexample :
    12500000 ≥ sample_extending.next_state_transition_time_us
    ∧ loop_advance sample_extending 12500000 = sample_extending
    ∧ (loop_advance sample_extending 12500001).state_queue ≠ sample_extending.state_queue := by
  decide

/-- C2, amended: the transition block changes the state if and only if the
deadline lies strictly before `now`. Then the queue is shifted, the last
transition is stamped `now` and the new deadline lies after `now`. When
`now ≤ next_state_transition_time_us`, equality included, the whole state is
left as it is. -/
theorem advance_iff_deadline_passed (s : Sequencer) (now : Int)
    (hlen : s.state_queue.length = STATE_QUEUE_LEN) :
    (loop_advance s now ≠ s ↔ s.next_state_transition_time_us < now)
    ∧ (s.next_state_transition_time_us < now →
        (loop_advance s now).state_queue = s.state_queue.tail ++ [state_t.IDLE]
        ∧ (loop_advance s now).last_state_transition_time_us = now
        ∧ now < (loop_advance s now).next_state_transition_time_us)
    ∧ (now ≤ s.next_state_transition_time_us → loop_advance s now = s) := by
  obtain ⟨a, b, c, d, e, f, hq⟩ := queue_six s.state_queue hlen
  have hdue : s.next_state_transition_time_us < now →
      (loop_advance s now).state_queue = s.state_queue.tail ++ [state_t.IDLE]
      ∧ (loop_advance s now).last_state_transition_time_us = now
      ∧ now < (loop_advance s now).next_state_transition_time_us := by
    intro h
    obtain ⟨h1, h2, h3, -, -, -⟩ := loop_advance_due s now a b c d e f hq h
    refine ⟨by simp [h1, hq], h2, ?_⟩
    rw [h3]
    cases b <;> simp
  refine ⟨⟨?_, ?_⟩, hdue, ?_⟩
  · intro hne
    by_contra h
    exact hne (loop_advance_not_due s now h)
  · intro h heq
    have h3 := (hdue h).2.2
    rw [heq] at h3
    omega
  · intro h
    exact loop_advance_not_due s now (by omega)

/-- C2, amended, at `sample_extending` one microsecond after its deadline. -/
theorem advance_iff_deadline_passed_witness :
    sample_extending.state_queue.length = STATE_QUEUE_LEN
    ∧ sample_extending.next_state_transition_time_us < 12500001
    ∧ (loop_advance sample_extending 12500001).state_queue
        = sample_extending.state_queue.tail ++ [state_t.IDLE]
    ∧ (loop_advance sample_extending 12500001).last_state_transition_time_us = 12500001
    ∧ 12500001 < (loop_advance sample_extending 12500001).next_state_transition_time_us :=
  ⟨by decide, by decide,
    (advance_iff_deadline_passed sample_extending 12500001 (by decide)).2.1 (by decide)⟩

/-! ## C3: the queue invariant -/

/-- C3: a due transition on a six-slot queue yields a six-slot queue with
`new[i] = old[i+1]` for `i` in 0..4 and `new[5] = IDLE`; every state reachable
from `setup()` through the blocks of `loop()` has exactly six slots, and after
the transition block has run on a reachable state, whether it fired or not, the
last slot is `IDLE`. -/
theorem queue_invariant (s : Sequencer) (now : Int) :
    (s.state_queue.length = STATE_QUEUE_LEN →
      s.next_state_transition_time_us < now →
        (loop_advance s now).state_queue.length = 6
        ∧ (∀ i, i < 5 → (loop_advance s now).slot i = s.slot (i + 1))
        ∧ (loop_advance s now).slot 5 = state_t.IDLE)
    ∧ (Reachable s →
        s.state_queue.length = 6
        ∧ (loop_advance s now).state_queue.length = 6
        ∧ (loop_advance s now).slot 5 = state_t.IDLE) := by
  constructor
  · intro hlen hdue
    obtain ⟨a, b, c, d, e, f, hq⟩ := queue_six s.state_queue hlen
    obtain ⟨h1, -⟩ := loop_advance_due s now a b c d e f hq hdue
    refine ⟨by simp [h1], ?_, by simp [Sequencer.slot, h1]⟩
    intro i hi
    interval_cases i <;> simp [Sequencer.slot, h1, hq]
  · intro hr
    exact ⟨(reachable_queue_shape s hr).1,
      reachable_queue_shape _ (Reachable.advance s now hr)⟩

/-- C3 at `sample_extending` one microsecond after its deadline, and at the
state `setup()` leaves at time 0. -/
theorem queue_invariant_witness :
    (sample_extending.state_queue.length = STATE_QUEUE_LEN
      ∧ sample_extending.next_state_transition_time_us < 12500001
      ∧ (loop_advance sample_extending 12500001).state_queue.length = 6
      ∧ (∀ i, i < 5 →
          (loop_advance sample_extending 12500001).slot i = sample_extending.slot (i + 1))
      ∧ (loop_advance sample_extending 12500001).slot 5 = state_t.IDLE)
    ∧ (Reachable sample_idle
      ∧ sample_idle.state_queue.length = 6
      ∧ (loop_advance sample_idle 1).state_queue.length = 6
      ∧ (loop_advance sample_idle 1).slot 5 = state_t.IDLE) :=
  ⟨⟨by decide, by decide,
      (queue_invariant sample_extending 12500001).1 (by decide) (by decide)⟩,
    ⟨Reachable.boot false false false false 0,
      (queue_invariant sample_idle 1).2 (Reachable.boot false false false false 0)⟩⟩

/-! ## C4: the position latch -/

/-- C4: after a due transition `is_extended` is true if the replaced active
state was `EXTENDING`, false if it was `RETRACTING`, and unchanged if it was
`IDLE` or `COUNTDOWN`; a transition block that is not due and every run of the
button block leave `is_extended` unchanged. -/
theorem position_latch (s : Sequencer) (green_pressed red_pressed : Bool) (now : Int)
    (hlen : s.state_queue.length = STATE_QUEUE_LEN) :
    (s.next_state_transition_time_us < now →
      (s.slot 0 = state_t.EXTENDING → (loop_advance s now).is_extended = true)
      ∧ (s.slot 0 = state_t.RETRACTING → (loop_advance s now).is_extended = false)
      ∧ (s.slot 0 = state_t.IDLE ∨ s.slot 0 = state_t.COUNTDOWN →
          (loop_advance s now).is_extended = s.is_extended))
    ∧ (¬ s.next_state_transition_time_us < now →
        (loop_advance s now).is_extended = s.is_extended)
    ∧ (loop_buttons s green_pressed red_pressed now).is_extended = s.is_extended := by
  obtain ⟨a, b, c, d, e, f, hq⟩ := queue_six s.state_queue hlen
  refine ⟨?_, ?_, ?_⟩
  · intro hdue
    obtain ⟨-, -, -, h4, -, -⟩ := loop_advance_due s now a b c d e f hq hdue
    rw [h4]
    simp only [Sequencer.slot, hq, List.getD_cons_zero]
    refine ⟨?_, ?_, ?_⟩
    · intro h
      subst h
      rfl
    · intro h
      subst h
      rfl
    · intro h
      rcases h with h | h <;> subst h <;> rfl
  · intro h
    rw [loop_advance_not_due s now h]
  · obtain ⟨nt, b, c, d, e, f, h, -⟩ := loop_buttons_frame s green_pressed red_pressed now hlen
    rw [h]

/-- C4 at `sample_extending`: the due transition sets the flag, the transition
block at time 1 and a button press leave it. -/
theorem position_latch_witness :
    sample_extending.state_queue.length = STATE_QUEUE_LEN
    ∧ sample_extending.next_state_transition_time_us < 12500001
    ∧ sample_extending.slot 0 = state_t.EXTENDING
    ∧ (loop_advance sample_extending 12500001).is_extended = true
    ∧ ¬ sample_extending.next_state_transition_time_us < 1
    ∧ (loop_advance sample_extending 1).is_extended = sample_extending.is_extended
    ∧ (loop_buttons sample_extending true false 600000).is_extended
        = sample_extending.is_extended :=
  ⟨by decide, by decide, by decide,
    ((position_latch sample_extending true false 12500001 (by decide)).1 (by decide)).1
      (by decide),
    by decide,
    (position_latch sample_extending true false 1 (by decide)).2.1 (by decide),
    (position_latch sample_extending true false 600000 (by decide)).2.2⟩

/-! ## C5: the lockout -/

/-- C5: while `COUNTDOWN`, `EXTENDING` or `RETRACTING` is active and fewer than
500 000 microseconds have passed since the last transition, the button block
leaves the state, in particular the six slots and the deadline, unchanged for
every combination of button levels. At exactly 500 000 the lockout is over:
with both buttons pressed the deadline is rewritten to `now + 1000`. -/
theorem lockout_enforcement (s : Sequencer) (green_pressed red_pressed : Bool) (now : Int)
    (hlen : s.state_queue.length = STATE_QUEUE_LEN)
    (hact : s.slot 0 = state_t.COUNTDOWN ∨ s.slot 0 = state_t.EXTENDING
      ∨ s.slot 0 = state_t.RETRACTING) :
    (now - s.last_state_transition_time_us < 500000 →
      loop_buttons s green_pressed red_pressed now = s)
    ∧ (now - s.last_state_transition_time_us = 500000 →
      (loop_buttons s true true now).next_state_transition_time_us = now + 1000) := by
  obtain ⟨q, nt, lt, ie, ha, hb, g, r, log⟩ := s
  obtain ⟨a, b, c, d, e, f, rfl⟩ := queue_six q hlen
  simp only [Sequencer.slot, List.getD_cons_zero] at hact
  rcases hact with h | h | h <;> subst h
  · rw [loop_buttons_countdown, loop_buttons_countdown]
    constructor
    · intro hl
      simp [hl]
    · intro hl
      simp at hl
      simp [hl]
  · rw [loop_buttons_extending, loop_buttons_extending]
    constructor
    · intro hl
      simp at hl
      simp [hl]
    · intro hl
      simp at hl
      simp [hl]
  · rw [loop_buttons_retracting, loop_buttons_retracting]
    constructor
    · intro hl
      simp at hl
      simp [hl]
    · intro hl
      simp at hl
      simp [hl]

/-- C5 at `sample_extending`: a press at 499.999 ms is ignored, a press of
both buttons at 500 ms rewrites the deadline. -/
theorem lockout_enforcement_witness :
    sample_extending.state_queue.length = STATE_QUEUE_LEN
    ∧ sample_extending.slot 0 = state_t.EXTENDING
    ∧ 499999 - sample_extending.last_state_transition_time_us < 500000
    ∧ loop_buttons sample_extending true false 499999 = sample_extending
    ∧ 500000 - sample_extending.last_state_transition_time_us = 500000
    ∧ (loop_buttons sample_extending true true 500000).next_state_transition_time_us
        = 500000 + 1000 :=
  ⟨by decide, by decide, by decide,
    (lockout_enforcement sample_extending true false 499999 (by decide)
      (Or.inr (Or.inl (by decide)))).1 (by decide),
    by decide,
    (lockout_enforcement sample_extending true false 500000 (by decide)
      (Or.inr (Or.inl (by decide)))).2 (by decide)⟩

/-! ## C6: the full cycle -/

/-- C6: from the all-`IDLE` queue with `is_extended = false`, the button block
with only the advance button pressed queues
`[IDLE, EXTENDING, RETRACTING, COUNTDOWN, EXTENDING, IDLE]`; then, with both
buttons released and every iteration run after the deadline of the moment, the
active states are `IDLE`, `EXTENDING`, `RETRACTING`, `COUNTDOWN`, `EXTENDING`,
`IDLE`, and `is_extended` is true once the first `EXTENDING` is replaced, false
once `RETRACTING` is replaced, still false once `COUNTDOWN` is replaced, and
true once the second `EXTENDING` is replaced. -/
theorem full_cycle_scenario (s : Sequencer) (t0 t1 t2 t3 t4 t5 : Int)
    (hq : s.state_queue = all_idle) (hext : s.is_extended = false)
    (h1 : (loop_buttons s true false t0).next_state_transition_time_us < t1)
    (h2 : (run_released (loop_buttons s true false t0)
            [t1]).next_state_transition_time_us < t2)
    (h3 : (run_released (loop_buttons s true false t0)
            [t1, t2]).next_state_transition_time_us < t3)
    (h4 : (run_released (loop_buttons s true false t0)
            [t1, t2, t3]).next_state_transition_time_us < t4)
    (h5 : (run_released (loop_buttons s true false t0)
            [t1, t2, t3, t4]).next_state_transition_time_us < t5) :
    (loop_buttons s true false t0).state_queue
        = [state_t.IDLE, state_t.EXTENDING, state_t.RETRACTING, state_t.COUNTDOWN,
           state_t.EXTENDING, state_t.IDLE]
    ∧ (loop_buttons s true false t0).is_extended = false
    ∧ (run_released (loop_buttons s true false t0) [t1]).slot 0 = state_t.EXTENDING
    ∧ (run_released (loop_buttons s true false t0) [t1]).is_extended = false
    ∧ (run_released (loop_buttons s true false t0) [t1, t2]).slot 0 = state_t.RETRACTING
    ∧ (run_released (loop_buttons s true false t0) [t1, t2]).is_extended = true
    ∧ (run_released (loop_buttons s true false t0) [t1, t2, t3]).slot 0 = state_t.COUNTDOWN
    ∧ (run_released (loop_buttons s true false t0) [t1, t2, t3]).is_extended = false
    ∧ (run_released (loop_buttons s true false t0) [t1, t2, t3, t4]).slot 0
        = state_t.EXTENDING
    ∧ (run_released (loop_buttons s true false t0) [t1, t2, t3, t4]).is_extended = false
    ∧ (run_released (loop_buttons s true false t0) [t1, t2, t3, t4, t5]).slot 0
        = state_t.IDLE
    ∧ (run_released (loop_buttons s true false t0) [t1, t2, t3, t4, t5]).is_extended
        = true := by
  obtain ⟨q, nt, lt, ie, ha, hb, g, r, log⟩ := s
  simp only [all_idle] at hq hext
  subst hq hext
  simp only [run_released, List.foldl] at h1 h2 h3 h4 h5 ⊢
  rw [loop_buttons_idle] at h1 h2 h3 h4 h5 ⊢
  simp only [Bool.false_eq_true, if_false, if_true] at h1 h2 h3 h4 h5 ⊢
  obtain ⟨q1, -, e1⟩ := loop_released_due
    ⟨[state_t.IDLE, state_t.EXTENDING, state_t.RETRACTING, state_t.COUNTDOWN,
      state_t.EXTENDING, state_t.IDLE], nt, lt, false, ha, hb, g, r, log⟩
    t1 _ _ _ _ _ _ rfl h1
  obtain ⟨q2, -, e2⟩ := loop_released_due _ t2 _ _ _ _ _ _ q1 h2
  obtain ⟨q3, -, e3⟩ := loop_released_due _ t3 _ _ _ _ _ _ q2 h3
  obtain ⟨q4, -, e4⟩ := loop_released_due _ t4 _ _ _ _ _ _ q3 h4
  obtain ⟨q5, -, e5⟩ := loop_released_due _ t5 _ _ _ _ _ _ q4 h5
  simp only at e1 e2 e3 e4 e5
  rw [e3] at e4
  refine ⟨trivial, trivial, ?_, e1, ?_, e2, ?_, e3, ?_, e4, ?_, e5⟩
  · simp [Sequencer.slot, q1]
  · simp [Sequencer.slot, q2]
  · simp [Sequencer.slot, q3]
  · simp [Sequencer.slot, q4]
  · simp [Sequencer.slot, q5]

/-- C6 from the state `setup()` leaves at time 0: advance pressed at time 0,
then iterations at 1 ms, 13 s, 26 s, 1230 s and 1243 s. -/
theorem full_cycle_scenario_witness :
    sample_idle.state_queue = all_idle
    ∧ sample_idle.is_extended = false
    ∧ (loop_buttons sample_idle true false 0).state_queue
        = [state_t.IDLE, state_t.EXTENDING, state_t.RETRACTING, state_t.COUNTDOWN,
           state_t.EXTENDING, state_t.IDLE]
    ∧ (run_released (loop_buttons sample_idle true false 0)
        [1000, 13000000, 26000000, 1230000000, 1243000000]).slot 0 = state_t.IDLE
    ∧ (run_released (loop_buttons sample_idle true false 0)
        [1000, 13000000, 26000000, 1230000000, 1243000000]).is_extended = true :=
  have h := full_cycle_scenario sample_idle 0 1000 13000000 26000000 1230000000 1243000000
    (by decide) (by decide) (by decide) (by decide) (by decide) (by decide) (by decide)
  ⟨by decide, by decide, h.1, h.2.2.2.2.2.2.2.2.2.2.1, h.2.2.2.2.2.2.2.2.2.2.2⟩

/-! ## C7: abort while extending -/

/-- C7: with `EXTENDING` active and the lockout over, the button block with the
advance button pressed, whatever the retract button, sets the deadline to
`now + 1000` and slots 1..5 to `IDLE`, keeping slot 0 `EXTENDING`; the next due
transition leaves the whole queue `IDLE`. -/
theorem abort_in_extending (s : Sequencer) (red_pressed : Bool) (now t : Int)
    (hlen : s.state_queue.length = STATE_QUEUE_LEN)
    (hact : s.slot 0 = state_t.EXTENDING)
    (hlock : now - s.last_state_transition_time_us ≥ 500000) :
    (loop_buttons s true red_pressed now).next_state_transition_time_us = now + 1000
    ∧ (loop_buttons s true red_pressed now).state_queue
        = [state_t.EXTENDING, state_t.IDLE, state_t.IDLE, state_t.IDLE, state_t.IDLE,
           state_t.IDLE]
    ∧ ((loop_buttons s true red_pressed now).next_state_transition_time_us < t →
        (loop_advance (loop_buttons s true red_pressed now) t).slot 0 = state_t.IDLE
        ∧ (loop_advance (loop_buttons s true red_pressed now) t).state_queue = all_idle) := by
  obtain ⟨q, nt, lt, ie, ha, hb, g, r, log⟩ := s
  obtain ⟨a, b, c, d, e, f, rfl⟩ := queue_six q hlen
  simp only [Sequencer.slot, List.getD_cons_zero] at hact
  subst hact
  simp only [ge_iff_le] at hlock
  have hl : ¬ (now - lt < 500000) := by omega
  rw [loop_buttons_extending]
  simp only [hl, if_false, if_true]
  refine ⟨trivial, trivial, ?_⟩
  intro hdue
  obtain ⟨h1, -⟩ := loop_advance_due
    ⟨[state_t.EXTENDING, state_t.IDLE, state_t.IDLE, state_t.IDLE, state_t.IDLE,
      state_t.IDLE], now + 1000, lt, ie, ha, hb, g, r, log⟩ t _ _ _ _ _ _ rfl hdue
  simp [Sequencer.slot, h1, all_idle]

/-- C7 at `sample_extending`: advance pressed at 600 ms, transition at
601.001 ms. -/
theorem abort_in_extending_witness :
    sample_extending.state_queue.length = STATE_QUEUE_LEN
    ∧ sample_extending.slot 0 = state_t.EXTENDING
    ∧ 600000 - sample_extending.last_state_transition_time_us ≥ 500000
    ∧ (loop_buttons sample_extending true false 600000).next_state_transition_time_us
        = 600000 + 1000
    ∧ (loop_buttons sample_extending true false 600000).state_queue
        = [state_t.EXTENDING, state_t.IDLE, state_t.IDLE, state_t.IDLE, state_t.IDLE,
           state_t.IDLE]
    ∧ (loop_advance (loop_buttons sample_extending true false 600000) 601001).state_queue
        = all_idle :=
  have h := abort_in_extending sample_extending false 600000 601001
    (by decide) (by decide) (by decide)
  ⟨by decide, by decide, by decide, h.1, h.2.1, (h.2.2 (by decide)).2⟩

/-! ## C8: reversal while retracting -/

/-- C8: with `RETRACTING` active and the lockout over, the button block with
the advance button pressed and the retract button released sets slot 1 to
`EXTENDING`, slots 2..5 to `IDLE` and the deadline to `now + 1000`; the next
due transition, at time `t`, makes `EXTENDING` the active state, writes the
drive-out levels (`HBRIDGE_A` low, `HBRIDGE_B` high) and sets the deadline to
`t + 12 500 000`. -/
theorem reversal_scenario (s : Sequencer) (now t : Int)
    (hlen : s.state_queue.length = STATE_QUEUE_LEN)
    (hact : s.slot 0 = state_t.RETRACTING)
    (hlock : now - s.last_state_transition_time_us ≥ 500000) :
    (loop_buttons s true false now).state_queue
        = [state_t.RETRACTING, state_t.EXTENDING, state_t.IDLE, state_t.IDLE, state_t.IDLE,
           state_t.IDLE]
    ∧ (loop_buttons s true false now).next_state_transition_time_us = now + 1000
    ∧ ((loop_buttons s true false now).next_state_transition_time_us < t →
        (loop_advance (loop_buttons s true false now) t).slot 0 = state_t.EXTENDING
        ∧ (loop_advance (loop_buttons s true false now) t).HBRIDGE_A = LOW
        ∧ (loop_advance (loop_buttons s true false now) t).HBRIDGE_B = HIGH
        ∧ (loop_advance (loop_buttons s true false now) t).next_state_transition_time_us
            = t + 12500000) := by
  obtain ⟨q, nt, lt, ie, ha, hb, g, r, log⟩ := s
  obtain ⟨a, b, c, d, e, f, rfl⟩ := queue_six q hlen
  simp only [Sequencer.slot, List.getD_cons_zero] at hact
  subst hact
  simp only [ge_iff_le] at hlock
  have hl : ¬ (now - lt < 500000) := by omega
  rw [loop_buttons_retracting]
  simp only [hl, if_false, if_true, Bool.false_eq_true]
  refine ⟨trivial, trivial, ?_⟩
  intro hdue
  obtain ⟨h1, -, h3, -, h5, h6⟩ := loop_advance_due
    ⟨[state_t.RETRACTING, state_t.EXTENDING, state_t.IDLE, state_t.IDLE, state_t.IDLE,
      state_t.IDLE], now + 1000, lt, ie, ha, hb, g, r, log⟩ t _ _ _ _ _ _ rfl hdue
  exact ⟨by simp [Sequencer.slot, h1], h5, h6, h3⟩

/-- C8 at `sample_retracting`: advance pressed at 600 ms, transition at
601.001 ms. -/
theorem reversal_scenario_witness :
    sample_retracting.state_queue.length = STATE_QUEUE_LEN
    ∧ sample_retracting.slot 0 = state_t.RETRACTING
    ∧ 600000 - sample_retracting.last_state_transition_time_us ≥ 500000
    ∧ (loop_buttons sample_retracting true false 600000).state_queue
        = [state_t.RETRACTING, state_t.EXTENDING, state_t.IDLE, state_t.IDLE, state_t.IDLE,
           state_t.IDLE]
    ∧ (loop_advance (loop_buttons sample_retracting true false 600000) 601001).slot 0
        = state_t.EXTENDING
    ∧ (loop_advance (loop_buttons sample_retracting true false 600000)
        601001).next_state_transition_time_us = 601001 + 12500000 :=
  have h := reversal_scenario sample_retracting 600000 601001
    (by decide) (by decide) (by decide)
  ⟨by decide, by decide, by decide, h.1, (h.2.2 (by decide)).1, (h.2.2 (by decide)).2.2.2⟩

/-! ## C9: cutting the countdown short -/

/-- C9: with `COUNTDOWN` active and the lockout over, the button block with
both buttons pressed changes the deadline to `now + 1000` and nothing else
(the six slots, the last-transition timestamp, `is_extended` and the pins are
kept), so the next due transition makes the former slot 1 the active state;
with one button or none pressed the button block changes nothing. -/
theorem countdown_short_circuit (s : Sequencer) (green_pressed red_pressed : Bool)
    (now t : Int)
    (hlen : s.state_queue.length = STATE_QUEUE_LEN)
    (hact : s.slot 0 = state_t.COUNTDOWN)
    (hlock : now - s.last_state_transition_time_us ≥ 500000) :
    loop_buttons s true true now = { s with next_state_transition_time_us := now + 1000 }
    ∧ ((loop_buttons s true true now).next_state_transition_time_us < t →
        (loop_advance (loop_buttons s true true now) t).slot 0 = s.slot 1)
    ∧ (¬ (green_pressed = true ∧ red_pressed = true) →
        loop_buttons s green_pressed red_pressed now = s) := by
  obtain ⟨q, nt, lt, ie, ha, hb, g, r, log⟩ := s
  obtain ⟨a, b, c, d, e, f, rfl⟩ := queue_six q hlen
  simp only [Sequencer.slot, List.getD_cons_zero] at hact
  subst hact
  simp only [ge_iff_le] at hlock
  have hl : ¬ (now - lt < 500000) := by omega
  rw [loop_buttons_countdown, loop_buttons_countdown]
  simp only [hl, if_false, if_true, Bool.and_self]
  refine ⟨trivial, ?_, ?_⟩
  · intro hdue
    obtain ⟨h1, -⟩ := loop_advance_due
      ⟨[state_t.COUNTDOWN, b, c, d, e, f], now + 1000, lt, ie, ha, hb, g, r, log⟩
      t _ _ _ _ _ _ rfl hdue
    simp [Sequencer.slot, h1]
  · intro hne
    cases green_pressed <;> cases red_pressed <;> simp at hne ⊢

/-- C9 at `sample_countdown`: both buttons at 600 ms, transition at 601.001 ms;
the advance button alone at 600 ms. -/
theorem countdown_short_circuit_witness :
    sample_countdown.state_queue.length = STATE_QUEUE_LEN
    ∧ sample_countdown.slot 0 = state_t.COUNTDOWN
    ∧ 600000 - sample_countdown.last_state_transition_time_us ≥ 500000
    ∧ loop_buttons sample_countdown true true 600000
        = { sample_countdown with next_state_transition_time_us := 600000 + 1000 }
    ∧ (loop_advance (loop_buttons sample_countdown true true 600000) 601001).slot 0
        = sample_countdown.slot 1
    ∧ loop_buttons sample_countdown true false 600000 = sample_countdown :=
  have h := countdown_short_circuit sample_countdown true false 600000 601001
    (by decide) (by decide) (by decide)
  ⟨by decide, by decide, by decide, h.1, h.2.1 (by decide), h.2.2 (by decide)⟩

/-! ## C10: the retract button while idle -/

/-- C10: with `IDLE` active, at any time and for either level of the advance
button, the button block with the retract button pressed sets slot 1 to
`RETRACTING` if `is_extended` and to `EXTENDING` otherwise, sets slots 2..5 to
`IDLE`, and leaves slot 0, both timestamps, `is_extended` and everything else
unchanged. -/
theorem idle_retract_press (s : Sequencer) (green_pressed : Bool) (now : Int)
    (hlen : s.state_queue.length = STATE_QUEUE_LEN)
    (hact : s.slot 0 = state_t.IDLE) :
    loop_buttons s green_pressed true now =
      { s with state_queue :=
          [state_t.IDLE,
           if s.is_extended then state_t.RETRACTING else state_t.EXTENDING,
           state_t.IDLE, state_t.IDLE, state_t.IDLE, state_t.IDLE] }
    ∧ (loop_buttons s green_pressed true now).slot 0 = s.slot 0
    ∧ (loop_buttons s green_pressed true now).next_state_transition_time_us
        = s.next_state_transition_time_us
    ∧ (loop_buttons s green_pressed true now).last_state_transition_time_us
        = s.last_state_transition_time_us
    ∧ (loop_buttons s green_pressed true now).is_extended = s.is_extended := by
  obtain ⟨q, nt, lt, ie, ha, hb, g, r, log⟩ := s
  obtain ⟨a, b, c, d, e, f, rfl⟩ := queue_six q hlen
  simp only [Sequencer.slot, List.getD_cons_zero] at hact
  subst hact
  rw [loop_buttons_idle]
  simp [Sequencer.slot]

/-- C10 at the state `setup()` leaves at time 0 (retracted) and at the same
state with the position flag set: the retract button queues `EXTENDING`,
respectively `RETRACTING`. -/
theorem idle_retract_press_witness :
    sample_idle.state_queue.length = STATE_QUEUE_LEN
    ∧ sample_idle.slot 0 = state_t.IDLE
    ∧ (loop_buttons sample_idle false true 5).state_queue
        = [state_t.IDLE, state_t.EXTENDING, state_t.IDLE, state_t.IDLE, state_t.IDLE,
           state_t.IDLE]
    ∧ (loop_buttons { sample_idle with is_extended := true } true true 5).state_queue
        = [state_t.IDLE, state_t.RETRACTING, state_t.IDLE, state_t.IDLE, state_t.IDLE,
           state_t.IDLE] :=
  ⟨by decide, by decide,
    congrArg Sequencer.state_queue
      (idle_retract_press sample_idle false 5 (by decide) (by decide)).1,
    congrArg Sequencer.state_queue
      (idle_retract_press { sample_idle with is_extended := true } true 5
        (by decide) (by decide)).1⟩

/-! ## C11: the advance button while idle -/

/-- C11: with `IDLE` active, the button block with the advance button pressed
and the retract button released sets slot 1 to `IDLE` if `is_extended` and to
`EXTENDING` otherwise, slot 2 to `RETRACTING`, slot 3 to `COUNTDOWN`, slot 4 to
`EXTENDING` and slot 5 to `IDLE`, leaving everything else; with neither button
pressed it changes nothing. -/
theorem idle_advance_press (s : Sequencer) (now : Int)
    (hlen : s.state_queue.length = STATE_QUEUE_LEN)
    (hact : s.slot 0 = state_t.IDLE) :
    loop_buttons s true false now =
      { s with state_queue :=
          [state_t.IDLE,
           if s.is_extended then state_t.IDLE else state_t.EXTENDING,
           state_t.RETRACTING, state_t.COUNTDOWN, state_t.EXTENDING, state_t.IDLE] }
    ∧ loop_buttons s false false now = s := by
  obtain ⟨q, nt, lt, ie, ha, hb, g, r, log⟩ := s
  obtain ⟨a, b, c, d, e, f, rfl⟩ := queue_six q hlen
  simp only [Sequencer.slot, List.getD_cons_zero] at hact
  subst hact
  rw [loop_buttons_idle, loop_buttons_idle]
  simp

/-- C11 at the state `setup()` leaves at time 0, and at the same state with
the position flag set. -/
theorem idle_advance_press_witness :
    sample_idle.state_queue.length = STATE_QUEUE_LEN
    ∧ sample_idle.slot 0 = state_t.IDLE
    ∧ (loop_buttons sample_idle true false 5).state_queue
        = [state_t.IDLE, state_t.EXTENDING, state_t.RETRACTING, state_t.COUNTDOWN,
           state_t.EXTENDING, state_t.IDLE]
    ∧ (loop_buttons { sample_idle with is_extended := true } true false 5).state_queue
        = [state_t.IDLE, state_t.IDLE, state_t.RETRACTING, state_t.COUNTDOWN,
           state_t.EXTENDING, state_t.IDLE]
    ∧ loop_buttons sample_idle false false 5 = sample_idle :=
  ⟨by decide, by decide,
    congrArg Sequencer.state_queue
      (idle_advance_press sample_idle 5 (by decide) (by decide)).1,
    congrArg Sequencer.state_queue
      (idle_advance_press { sample_idle with is_extended := true } 5
        (by decide) (by decide)).1,
    (idle_advance_press sample_idle 5 (by decide) (by decide)).2⟩

/-! ## C12: the button block never writes the active state -/

/-- C12: for every state, timestamp and button levels the button block leaves
slot 0 and the last-transition timestamp unchanged; a call of any of the three
blocks that changes slot 0 is a transition block whose deadline has passed. -/
theorem buttons_keep_active_state (s : Sequencer) (green_pressed red_pressed : Bool)
    (now : Int) (c : call_t)
    (hlen : s.state_queue.length = STATE_QUEUE_LEN) :
    (loop_buttons s green_pressed red_pressed now).slot 0 = s.slot 0
    ∧ (loop_buttons s green_pressed red_pressed now).last_state_transition_time_us
        = s.last_state_transition_time_us
    ∧ ((c.run s).slot 0 ≠ s.slot 0 →
        ∃ t, c = call_t.advance t ∧ s.next_state_transition_time_us < t) := by
  have hb : ∀ g r t, (loop_buttons s g r t).slot 0 = s.slot 0
      ∧ (loop_buttons s g r t).last_state_transition_time_us
          = s.last_state_transition_time_us := by
    intro g r t
    obtain ⟨nt, b, c, d, e, f, h, -⟩ := loop_buttons_frame s g r t hlen
    rw [h]
    exact ⟨rfl, rfl⟩
  refine ⟨(hb _ _ _).1, (hb _ _ _).2, ?_⟩
  intro hne
  cases c with
  | advance t =>
    refine ⟨t, rfl, ?_⟩
    by_contra hdue
    apply hne
    simp only [call_t.run]
    rw [loop_advance_not_due s t hdue]
  | leds t =>
    exfalso
    apply hne
    obtain ⟨g, r, h⟩ := loop_leds_frame s t
    simp only [call_t.run]
    rw [h]
    rfl
  | buttons g r t =>
    exfalso
    exact hne (hb g r t).1

/-- C12 at `sample_extending`: an abort press at 600 ms keeps slot 0 and the
timestamp; the transition block one microsecond past the deadline changes
slot 0 and is due. -/
theorem buttons_keep_active_state_witness :
    sample_extending.state_queue.length = STATE_QUEUE_LEN
    ∧ (loop_buttons sample_extending true false 600000).slot 0 = sample_extending.slot 0
    ∧ (loop_buttons sample_extending true false 600000).last_state_transition_time_us
        = sample_extending.last_state_transition_time_us
    ∧ ((call_t.advance 12500001).run sample_extending).slot 0 ≠ sample_extending.slot 0
    ∧ ∃ t, call_t.advance 12500001 = call_t.advance t
        ∧ sample_extending.next_state_transition_time_us < t :=
  have h := buttons_keep_active_state sample_extending true false 600000
    (call_t.advance 12500001) (by decide)
  ⟨by decide, h.1, h.2.1, by decide, h.2.2 (by decide)⟩

/-! ## C13: the deadlines after a transition -/

/-- C13: after a due transition at `now` the last-transition timestamp is `now`
and the deadline is `now` plus the duration of the new active state: 1 000
microseconds for `IDLE`, 1 200 000 000 for `COUNTDOWN`, 12 500 000 for
`EXTENDING` and for `RETRACTING`. The initialisers `20 * MINS`, `12500 * MS`
and `500 * MS`, evaluated in 32-bit `int` arithmetic, do not overflow and give
the values the constants have. -/
theorem advance_deadlines (s : Sequencer) (now : Int)
    (hlen : s.state_queue.length = STATE_QUEUE_LEN)
    (hdue : s.next_state_transition_time_us < now) :
    (loop_advance s now).last_state_transition_time_us = now
    ∧ ((loop_advance s now).slot 0 = state_t.IDLE →
        (loop_advance s now).next_state_transition_time_us = now + 1000)
    ∧ ((loop_advance s now).slot 0 = state_t.COUNTDOWN →
        (loop_advance s now).next_state_transition_time_us = now + 1200000000)
    ∧ ((loop_advance s now).slot 0 = state_t.EXTENDING →
        (loop_advance s now).next_state_transition_time_us = now + 12500000)
    ∧ ((loop_advance s now).slot 0 = state_t.RETRACTING →
        (loop_advance s now).next_state_transition_time_us = now + 12500000)
    ∧ IDLE_STATE_US = 1000
    ∧ COUNTDOWN_STATE_US_int = some 1200000000
    ∧ EXTEND_RETRACT_STATE_US_int = some 12500000
    ∧ BTN_DISABLE_TIME_US_int = some 500000
    ∧ COUNTDOWN_STATE_US_int = some COUNTDOWN_STATE_US
    ∧ EXTEND_RETRACT_STATE_US_int = some EXTEND_RETRACT_STATE_US
    ∧ BTN_DISABLE_TIME_US_int = some BTN_DISABLE_TIME_US
    ∧ 20 * 60 * 1000000 = COUNTDOWN_STATE_US := by
  obtain ⟨a, b, c, d, e, f, hq⟩ := queue_six s.state_queue hlen
  obtain ⟨h1, h2, h3, -, -, -⟩ := loop_advance_due s now a b c d e f hq hdue
  have h0 : (loop_advance s now).slot 0 = b := by simp [Sequencer.slot, h1]
  rw [h0, h3]
  refine ⟨h2, ?_, ?_, ?_, ?_, by decide, by decide, by decide, by decide, by decide,
    by decide, by decide, by decide⟩ <;> intro hb <;> subst hb <;> rfl

/-- C13 at `sample_extending`: the transition one microsecond after the
deadline enters `RETRACTING` with a deadline 12.5 s later. -/
theorem advance_deadlines_witness :
    sample_extending.state_queue.length = STATE_QUEUE_LEN
    ∧ sample_extending.next_state_transition_time_us < 12500001
    ∧ (loop_advance sample_extending 12500001).last_state_transition_time_us = 12500001
    ∧ (loop_advance sample_extending 12500001).slot 0 = state_t.RETRACTING
    ∧ (loop_advance sample_extending 12500001).next_state_transition_time_us
        = 12500001 + 12500000 :=
  have h := advance_deadlines sample_extending 12500001 (by decide) (by decide)
  ⟨by decide, by decide, h.1, by decide, h.2.2.2.2.1 (by decide)⟩

/-! ## C14: monotonic deadlines -/

/-- C14: along every run of calls from `setup()`, the deadline is never before
the timestamp of the call that last assigned it; and a call made at timestamp
`t` on the state reached that assigns the deadline leaves a value after `t`,
while a call that does not assign it leaves the deadline as it was. -/
theorem monotonic_deadlines (a b g r : Bool) (start : Int) (calls : List call_t)
    (c : call_t) :
    (traced_run a b g r start calls).2
        ≤ (traced_run a b g r start calls).1.next_state_transition_time_us
    ∧ (c.writes_deadline (traced_run a b g r start calls).1 = true →
        c.time < (c.run (traced_run a b g r start calls).1).next_state_transition_time_us)
    ∧ (c.writes_deadline (traced_run a b g r start calls).1 = false →
        (c.run (traced_run a b g r start calls).1).next_state_transition_time_us
          = (traced_run a b g r start calls).1.next_state_transition_time_us) := by
  obtain ⟨hr, hle⟩ := traced_run_invariant a b g r start calls
  exact ⟨hle, call_deadline _ c (reachable_queue_shape _ hr).1⟩

/-- C14 on the run: `setup()` at 0, transition block at 5, advance button at
10, transition block at 1 011 (entering `EXTENDING`), then an abort press at
600 000 assigns the deadline 601 000. -/
theorem monotonic_deadlines_witness :
    (traced_run false false false false 0
        [call_t.advance 5, call_t.buttons true false 10, call_t.advance 1011]).2 = 1011
    ∧ (1011 : Int) ≤ (traced_run false false false false 0
        [call_t.advance 5, call_t.buttons true false 10,
         call_t.advance 1011]).1.next_state_transition_time_us
    ∧ (call_t.buttons true false 601011).writes_deadline (traced_run false false false false 0
        [call_t.advance 5, call_t.buttons true false 10, call_t.advance 1011]).1 = true
    ∧ (call_t.buttons true false 601011).time
        < ((call_t.buttons true false 601011).run (traced_run false false false false 0
            [call_t.advance 5, call_t.buttons true false 10,
             call_t.advance 1011]).1).next_state_transition_time_us :=
  have h := monotonic_deadlines false false false false 0
    [call_t.advance 5, call_t.buttons true false 10, call_t.advance 1011]
    (call_t.buttons true false 601011)
  ⟨by decide, by decide, by decide, h.2.1 (by decide)⟩

/-! ## C15: the LED table -/

/-- C15: with `remaining = next_state_transition_time_us - now` and the phase
`(remaining / 1000000) % 2 == 1` as C++ computes it, the LED block leaves
(green, red) at (off, off) for `IDLE`, (phase, not phase) for `COUNTDOWN`,
(phase, off) for `EXTENDING` and (off, phase) for `RETRACTING`. Two states with
the same active state and the same remaining time get the same LED levels, and
the two LEDs are never both on. Where `remaining` is not negative, as it is
whenever the LED block runs after the transition block in `loop()`, the phase
is the same computed with floor division and the non-negative remainder. -/
theorem led_feedback_table (s s2 : Sequencer) (now now2 : Int) :
    ((loop_leds s now).GREEN_LED, (loop_leds s now).RED_LED)
      = led_table (s.slot 0) (phase_trunc (s.next_state_transition_time_us - now))
    ∧ (s.slot 0 = s2.slot 0 →
        s.next_state_transition_time_us - now = s2.next_state_transition_time_us - now2 →
          (loop_leds s now).GREEN_LED = (loop_leds s2 now2).GREEN_LED
          ∧ (loop_leds s now).RED_LED = (loop_leds s2 now2).RED_LED)
    ∧ ¬ ((loop_leds s now).GREEN_LED = true ∧ (loop_leds s now).RED_LED = true)
    ∧ (0 ≤ s.next_state_transition_time_us - now →
        ((loop_leds s now).GREEN_LED, (loop_leds s now).RED_LED)
          = led_table (s.slot 0) (phase_floor (s.next_state_transition_time_us - now)))
    ∧ ((loop_leds (loop_advance s now) now).GREEN_LED,
        (loop_leds (loop_advance s now) now).RED_LED)
        = led_table ((loop_advance s now).slot 0)
            (phase_floor ((loop_advance s now).next_state_transition_time_us - now)) := by
  have ht := loop_leds_table s now
  refine ⟨ht, ?_, ?_, ?_, ?_⟩
  · intro hs hr
    have ht2 := loop_leds_table s2 now2
    rw [← hs, ← hr, ← ht] at ht2
    exact ⟨(congrArg Prod.fst ht2).symm, (congrArg Prod.snd ht2).symm⟩
  · intro hboth
    have h1 := congrArg Prod.fst ht
    have h2 := congrArg Prod.snd ht
    simp only at h1 h2
    rw [hboth.1] at h1
    rw [hboth.2] at h2
    cases hs : s.slot 0 <;>
      cases hp : phase_trunc (s.next_state_transition_time_us - now) <;>
      simp [led_table, hs, hp] at h1 h2
  · intro h
    rw [← phase_trunc_eq_floor _ h]
    exact ht
  · rw [← phase_trunc_eq_floor _ (deadline_not_before_now s now)]
    exact loop_leds_table _ now

/-- C15 at `sample_countdown` (1200 s remaining at time 0: even second, red
on) and at a second state one second later with the same active state and
remaining time. -/
theorem led_feedback_table_witness :
    sample_countdown.slot 0 = sample_countdown.slot 0
    ∧ sample_countdown.next_state_transition_time_us - 0
        = { sample_countdown with
            next_state_transition_time_us := 1201000000 }.next_state_transition_time_us
          - 1000000
    ∧ (loop_leds sample_countdown 0).GREEN_LED
        = (loop_leds { sample_countdown with next_state_transition_time_us := 1201000000 }
            1000000).GREEN_LED
    ∧ (loop_leds sample_countdown 0).RED_LED
        = (loop_leds { sample_countdown with next_state_transition_time_us := 1201000000 }
            1000000).RED_LED
    ∧ (0 : Int) ≤ sample_countdown.next_state_transition_time_us - 0
    ∧ ((loop_leds sample_countdown 0).GREEN_LED, (loop_leds sample_countdown 0).RED_LED)
        = led_table state_t.COUNTDOWN (phase_floor 1200000000) :=
  have h := led_feedback_table sample_countdown
    { sample_countdown with next_state_transition_time_us := 1201000000 } 0 1000000
  ⟨rfl, by decide, (h.2.1 rfl (by decide)).1, (h.2.1 rfl (by decide)).2, by decide,
    h.2.2.2.1 (by decide)⟩

/-! ## C16: the motor command -/

/-- C16: a due transition writes (A, B) = (low, low) when the new active state
is `IDLE` or `COUNTDOWN`, the drive-out pair (low, high) when it is
`EXTENDING`, and the drive-in pair (high, low) when it is `RETRACTING`. The two
drive commands write complementary levels, `stop_motor` writes both low, and
the two outputs are never both high after the transition. -/
theorem motor_command_mapping (s x : Sequencer) (now : Int)
    (hlen : s.state_queue.length = STATE_QUEUE_LEN)
    (hdue : s.next_state_transition_time_us < now) :
    ((loop_advance s now).slot 0 = state_t.IDLE
        ∨ (loop_advance s now).slot 0 = state_t.COUNTDOWN →
      (loop_advance s now).HBRIDGE_A = LOW ∧ (loop_advance s now).HBRIDGE_B = LOW)
    ∧ ((loop_advance s now).slot 0 = state_t.EXTENDING →
      (loop_advance s now).HBRIDGE_A = LOW ∧ (loop_advance s now).HBRIDGE_B = HIGH)
    ∧ ((loop_advance s now).slot 0 = state_t.RETRACTING →
      (loop_advance s now).HBRIDGE_A = HIGH ∧ (loop_advance s now).HBRIDGE_B = LOW)
    ∧ ¬ ((loop_advance s now).HBRIDGE_A = HIGH ∧ (loop_advance s now).HBRIDGE_B = HIGH)
    ∧ ((set_direction_out x).HBRIDGE_A = LOW ∧ (set_direction_out x).HBRIDGE_B = HIGH)
    ∧ ((set_direction_in x).HBRIDGE_A = HIGH ∧ (set_direction_in x).HBRIDGE_B = LOW)
    ∧ ((stop_motor x).HBRIDGE_A = LOW ∧ (stop_motor x).HBRIDGE_B = LOW)
    ∧ (set_direction_out x).HBRIDGE_A = !(set_direction_out x).HBRIDGE_B
    ∧ (set_direction_in x).HBRIDGE_A = !(set_direction_in x).HBRIDGE_B := by
  obtain ⟨a, b, c, d, e, f, hq⟩ := queue_six s.state_queue hlen
  obtain ⟨h1, -, -, -, h5, h6⟩ := loop_advance_due s now a b c d e f hq hdue
  have h0 : (loop_advance s now).slot 0 = b := by simp [Sequencer.slot, h1]
  rw [h0, h5, h6]
  refine ⟨?_, ?_, ?_, ?_, ⟨rfl, rfl⟩, ⟨rfl, rfl⟩, ⟨rfl, rfl⟩, rfl, rfl⟩
  · intro hb
    rcases hb with hb | hb <;> subst hb <;> exact ⟨rfl, rfl⟩
  · intro hb
    subst hb
    exact ⟨rfl, rfl⟩
  · intro hb
    subst hb
    exact ⟨rfl, rfl⟩
  · cases b <;> simp [LOW, HIGH]

/-- C16 at `sample_extending`, whose due transition enters `RETRACTING` and
writes the drive-in pair. -/
theorem motor_command_mapping_witness :
    sample_extending.state_queue.length = STATE_QUEUE_LEN
    ∧ sample_extending.next_state_transition_time_us < 12500001
    ∧ (loop_advance sample_extending 12500001).slot 0 = state_t.RETRACTING
    ∧ (loop_advance sample_extending 12500001).HBRIDGE_A = HIGH
    ∧ (loop_advance sample_extending 12500001).HBRIDGE_B = LOW :=
  have h := motor_command_mapping sample_extending sample_idle 12500001
    (by decide) (by decide)
  ⟨by decide, by decide, by decide, h.2.2.1 (by decide)⟩

/-! ## C17: one transition per expiry -/

/-- C17: running the transition block twice with the same timestamp gives the
same state as running it once: after a due transition at `now` the new
deadline lies after `now`, so the second run is not due. -/
theorem advance_twice (s : Sequencer) (now : Int) :
    loop_advance (loop_advance s now) now = loop_advance s now
    ∧ (s.next_state_transition_time_us < now →
        now < (loop_advance s now).next_state_transition_time_us
        ∧ ¬ (loop_advance s now).next_state_transition_time_us < now) := by
  have hgt : s.next_state_transition_time_us < now →
      now < (loop_advance s now).next_state_transition_time_us
      ∧ ¬ (loop_advance s now).next_state_transition_time_us < now := by
    intro hdue
    have h := loop_advance_next_gt s now hdue
    exact ⟨h, by omega⟩
  refine ⟨?_, hgt⟩
  by_cases hdue : s.next_state_transition_time_us < now
  · exact loop_advance_not_due _ now (hgt hdue).2
  · rw [loop_advance_not_due s now hdue, loop_advance_not_due s now hdue]

/-- C17 at `sample_extending` one microsecond after its deadline. -/
theorem advance_twice_witness :
    loop_advance (loop_advance sample_extending 12500001) 12500001
        = loop_advance sample_extending 12500001
    ∧ sample_extending.next_state_transition_time_us < 12500001
    ∧ (12500001 : Int)
        < (loop_advance sample_extending 12500001).next_state_transition_time_us :=
  have h := advance_twice sample_extending 12500001
  ⟨h.1, by decide, (h.2 (by decide)).1⟩

/-! ## C18: retracting mirrors extending -/

/-- C18: with `EXTENDING` or `RETRACTING` active, the button block on the
mirrored state with the two buttons swapped gives the mirror of what it gives
on the state itself, for every timestamp and all button levels. -/
theorem retracting_mirrors_extending (s : Sequencer) (advance retract : Bool) (now : Int)
    (hlen : s.state_queue.length = STATE_QUEUE_LEN)
    (hact : s.slot 0 = state_t.EXTENDING ∨ s.slot 0 = state_t.RETRACTING) :
    loop_buttons (mirror s) retract advance now
      = mirror (loop_buttons s advance retract now) := by
  obtain ⟨q, nt, lt, ie, ha, hb, g, r, log⟩ := s
  obtain ⟨a, b, c, d, e, f, rfl⟩ := queue_six q hlen
  simp only [Sequencer.slot, List.getD_cons_zero] at hact
  rcases hact with h | h <;> subst h
  · have hm : mirror ⟨[state_t.EXTENDING, b, c, d, e, f], nt, lt, ie, ha, hb, g, r, log⟩
        = ⟨[state_t.RETRACTING, mirror_state b, mirror_state c, mirror_state d,
            mirror_state e, mirror_state f], nt, lt, ie, ha, hb, g, r, log⟩ := rfl
    rw [hm, loop_buttons_retracting, loop_buttons_extending]
    by_cases hl : now - lt < 500000 <;> cases advance <;> cases retract <;>
      simp [hl, mirror, mirror_state]
  · have hm : mirror ⟨[state_t.RETRACTING, b, c, d, e, f], nt, lt, ie, ha, hb, g, r, log⟩
        = ⟨[state_t.EXTENDING, mirror_state b, mirror_state c, mirror_state d,
            mirror_state e, mirror_state f], nt, lt, ie, ha, hb, g, r, log⟩ := rfl
    rw [hm, loop_buttons_extending, loop_buttons_retracting]
    by_cases hl : now - lt < 500000 <;> cases advance <;> cases retract <;>
      simp [hl, mirror, mirror_state]

/-- C18 at `sample_extending` with the retract button pressed at 600 ms: the
mirrored state is `RETRACTING` with the advance button pressed. -/
theorem retracting_mirrors_extending_witness :
    sample_extending.state_queue.length = STATE_QUEUE_LEN
    ∧ sample_extending.slot 0 = state_t.EXTENDING
    ∧ loop_buttons (mirror sample_extending) true false 600000
        = mirror (loop_buttons sample_extending false true 600000)
    ∧ (loop_buttons (mirror sample_extending) true false 600000).state_queue
        = [state_t.RETRACTING, state_t.EXTENDING, state_t.IDLE, state_t.IDLE,
           state_t.IDLE, state_t.IDLE] :=
  ⟨by decide, by decide,
    retracting_mirrors_extending sample_extending false true 600000 (by decide)
      (Or.inl (by decide)),
    by decide⟩

/-! ## C19: the remaining time at the LED block -/

/-- C19: for every state and every timestamp, after the transition block has
run the deadline is not before `now`, so `remaining` is not negative; there the
truncating quotient and remainder of C++ equal the floor quotient and the
non-negative remainder, and `odd_second` is the floor phase. -/
theorem remaining_nonneg_at_render (s : Sequencer) (now : Int) :
    0 ≤ (loop_advance s now).next_state_transition_time_us - now
    ∧ Int.tdiv ((loop_advance s now).next_state_transition_time_us - now) 1000000
        = Int.fdiv ((loop_advance s now).next_state_transition_time_us - now) 1000000
    ∧ Int.tmod
          (Int.tdiv ((loop_advance s now).next_state_transition_time_us - now) 1000000) 2
        = Int.fmod
          (Int.fdiv ((loop_advance s now).next_state_transition_time_us - now) 1000000) 2
    ∧ odd_second (loop_advance s now) now
        = phase_floor ((loop_advance s now).next_state_transition_time_us - now) := by
  have h := deadline_not_before_now s now
  have h1 : Int.tdiv ((loop_advance s now).next_state_transition_time_us - now) 1000000
      = ((loop_advance s now).next_state_transition_time_us - now) / 1000000 :=
    Int.tdiv_eq_ediv h (by norm_num)
  have h2 : Int.fdiv ((loop_advance s now).next_state_transition_time_us - now) 1000000
      = ((loop_advance s now).next_state_transition_time_us - now) / 1000000 :=
    Int.fdiv_eq_ediv _ (by norm_num)
  have h3 : 0 ≤ ((loop_advance s now).next_state_transition_time_us - now) / 1000000 :=
    Int.ediv_nonneg h (by norm_num)
  refine ⟨h, by rw [h1, h2], ?_, phase_trunc_eq_floor _ h⟩
  rw [h1, h2, Int.tmod_eq_emod h3 (by norm_num), Int.fmod_eq_emod _ (by norm_num)]

/-! ## C20: the motor output and the active state -/

/-- C20: in every state reachable from `setup()` through the blocks of
`loop()`, and so after any sequence of `loop()` iterations with arbitrary
button levels and timestamps, the motor pins hold the command of the active
state: stop for `IDLE` and `COUNTDOWN`, drive-out for `EXTENDING`, drive-in for
`RETRACTING`; the motor is never driven while `IDLE` or `COUNTDOWN` is active. -/
theorem motor_matches_active_state (s : Sequencer) (a b g r : Bool) (start : Int)
    (inputs : List (Bool × Bool × Int)) :
    (Reachable s →
      (s.HBRIDGE_A, s.HBRIDGE_B) = motor_table (s.slot 0)
      ∧ (s.slot 0 = state_t.IDLE ∨ s.slot 0 = state_t.COUNTDOWN →
          s.HBRIDGE_A = LOW ∧ s.HBRIDGE_B = LOW)
      ∧ (s.slot 0 = state_t.EXTENDING → s.HBRIDGE_A = LOW ∧ s.HBRIDGE_B = HIGH)
      ∧ (s.slot 0 = state_t.RETRACTING → s.HBRIDGE_A = HIGH ∧ s.HBRIDGE_B = LOW))
    ∧ ((run_loop (setup (static_init a b g r) start) inputs).HBRIDGE_A,
        (run_loop (setup (static_init a b g r) start) inputs).HBRIDGE_B)
        = motor_table ((run_loop (setup (static_init a b g r) start) inputs).slot 0) := by
  refine ⟨?_, reachable_motor _ (reachable_run_loop inputs _ (Reachable.boot a b g r start))⟩
  intro hr
  have hm := reachable_motor s hr
  have hA := congrArg Prod.fst hm
  have hB := congrArg Prod.snd hm
  simp only at hA hB
  refine ⟨hm, ?_, ?_, ?_⟩
  · intro h
    rcases h with h | h <;> rw [h] at hA hB <;> exact ⟨hA, hB⟩
  · intro h
    rw [h] at hA hB
    exact ⟨hA, hB⟩
  · intro h
    rw [h] at hA hB
    exact ⟨hA, hB⟩

/-- C20 after `setup()` at time 0 with the motor pins high at power-on, and
after two iterations of `loop()`: the advance button held at 5 µs, both
buttons released at 1 006 µs, which enters `EXTENDING`. -/
theorem motor_matches_active_state_witness :
    Reachable (setup (static_init true true false false) 0)
    ∧ (setup (static_init true true false false) 0).slot 0 = state_t.IDLE
    ∧ (setup (static_init true true false false) 0).HBRIDGE_A = LOW
    ∧ (setup (static_init true true false false) 0).HBRIDGE_B = LOW
    ∧ (run_loop (setup (static_init true true false false) 0)
        [(false, true, 5), (true, true, 1006)]).slot 0 = state_t.EXTENDING
    ∧ ((run_loop (setup (static_init true true false false) 0)
          [(false, true, 5), (true, true, 1006)]).HBRIDGE_A,
        (run_loop (setup (static_init true true false false) 0)
          [(false, true, 5), (true, true, 1006)]).HBRIDGE_B) = (LOW, HIGH) :=
  have h := motor_matches_active_state (setup (static_init true true false false) 0)
    true true false false 0 [(false, true, 5), (true, true, 1006)]
  ⟨Reachable.boot true true false false 0, by decide,
    ((h.1 (Reachable.boot true true false false 0)).2.1 (Or.inl (by decide))).1,
    ((h.1 (Reachable.boot true true false false 0)).2.1 (Or.inl (by decide))).2,
    by decide, h.2⟩

end PomodoroBox
